import Mathlib

/-!
RenderPageToImage: the page-to-bitmap adapter (`RenderPage.cpp`, `mainproc.cpp`), and the
geometry of the PageResize sample (`pageResize.cpp`).

A shallow embedding of `RenderPageParams` and of `RenderPage`: the geometry of the
constructor, the buffer it allocates and has filled, and the row compaction and alpha
separation of `GetPDEImage`.

Numeric conventions of the embedding:

* an `ASDouble` value is a rational, and arithmetic on `ASDouble` values is exact;
* an `ASReal` value is a rational that a single-precision float represents; the
  conversion of an `ASDouble` to `ASReal` is `toASReal`, rounding to the nearest such
  value (ties to the even mantissa), with `2^128` and `-2^128` standing for the two
  infinities;
* an `ASFixed` is its raw 32-bit two's complement integer (16.16 fixed point);
  arithmetic done on `ASFixed` operands wraps modulo `2^32`, and
  `ASFixedToFloat` divides the raw value by 65536.
* `ASInt32` arithmetic wraps modulo `2^32`; `ASSize_t` is a 64-bit unsigned
  integer; the conversion of a real number to `ASInt32` truncates toward zero and
  yields `-2^31` outside the range of `ASInt32`.
-/

namespace RenderPageToImage

/-! ## Machine integers -/

/-- Two's complement reduction of an integer to the range of `ASInt32`. -/
def wrapInt32 (x : Int) : Int := (x + 2147483648) % 4294967296 - 2147483648

/-- Product of two `ASInt32` values, as computed in 32-bit arithmetic. -/
def mulInt32 (a b : Int) : Int := wrapInt32 (a * b)

/-- Difference of two `ASFixed` (raw 32-bit) values, as computed in 32-bit arithmetic. -/
def subFixed (a b : Int) : Int := wrapInt32 (a - b)

/-- Conversion `static_cast<ASSize_t>(x)` of a signed integer to a 64-bit unsigned one. -/
def toASSize_t (x : Int) : Nat := (x % 18446744073709551616).toNat

/-- Sum of two `ASInt32` values, as computed in 32-bit arithmetic. -/
def addInt32 (a b : Int) : Int := wrapInt32 (a + b)

/-- Conversion `(ASInt32)x` of a floating-point value that is an integer: the value itself
inside the range of `ASInt32`; outside of it the conversion is undefined in C++, and the
value that the conversion instruction of the x86 delivers, `-2^31`, is taken. -/
def castASInt32 (z : Int) : Int :=
  if -2147483648 ≤ z ∧ z < 2147483648 then z else -2147483648

/-- Conversion `(ASInt32)x` of a real number: truncation toward zero, then `castASInt32`. -/
def truncASInt32 (x : ℚ) : Int := castASInt32 (if 0 ≤ x then ⌊x⌋ else ⌈x⌉)

/-! ## Single precision -/

/-- The power `2^e` as a rational, for an integer exponent. -/
def pow2 (e : Int) : ℚ :=
  if 0 ≤ e then ((2 ^ e.toNat : Nat) : ℚ) else 1 / ((2 ^ (-e).toNat : Nat) : ℚ)

/-- The number of times `n` can be halved before it drops below 2, within `fuel` steps. -/
def halvings : Nat → Nat → Nat
  | 0, _ => 0
  | fuel + 1, n => if 2 ≤ n then halvings fuel (n / 2) + 1 else 0

/-- The exponent of a positive rational: the largest `e` with `2^e ≤ a`, found from the bit
lengths of the numerator and of the denominator. -/
def floorLog2 (a : ℚ) : Int :=
  let k : Int := (halvings a.num.toNat a.num.toNat : Int) - (halvings a.den a.den : Int)
  if pow2 k ≤ a then k else k - 1

/-- Rounding of a rational to the nearest integer, a tie going to the even one. -/
def roundHalfEven (y : ℚ) : Int :=
  if y - ⌊y⌋ < 1 / 2 then ⌊y⌋
  else if 1 / 2 < y - ⌊y⌋ then ⌊y⌋ + 1
  else if ⌊y⌋ % 2 = 0 then ⌊y⌋ else ⌊y⌋ + 1

/-- Conversion `(ASReal)x` of an `ASDouble` to single precision (IEEE 754 binary32, round to
nearest, ties to even): the spacing of the values around `x` is `2^(e - 23)` for the
exponent `e` of `x`, at least `-126`; a result of magnitude `2^128` or more is an infinity,
for which `2^128` or `-2^128` stands. -/
def toASReal (x : ℚ) : ℚ :=
  if x = 0 then 0
  else
    let e := max (floorLog2 |x|) (-126)
    let q := pow2 (e - 23)
    let r := (roundHalfEven (|x| / q) : ℚ) * q
    let r := if pow2 128 ≤ r then pow2 128 else r
    if x < 0 then -r else r

/-! ## Library types -/

/-- An `ASAtom` is an interned string: two atoms are equal iff their strings are. -/
abbrev ASAtom := String

/-- Modelled from the spec: `ASAtomFromString` is a library call; it interns the string. -/
def ASAtomFromString (s : String) : ASAtom := s

/-- Modelled from the spec: `ASAtomNull` is a library constant, the atom of the empty string. -/
def ASAtomNull : ASAtom := ""

deriving instance DecidableEq for Except

/-- Errors raised with `ASRaise`, and a failed `assert`. -/
inductive ASError where
  | genErrBadParm
  | genErrNoMemory
  | assertionFailed
  deriving DecidableEq, Repr

/-- The page rotation reported by `PDPageGetRotate`. -/
inductive PDRotate where
  | pdRotate0
  | pdRotate90
  | pdRotate180
  | pdRotate270
  deriving DecidableEq, Repr

/-- Rendering intents of `AC_RenderIntent` used by the sample. -/
inductive AC_RenderIntent where
  | AC_Perceptual
  | AC_RelColorimetric
  | AC_Saturation
  | AC_AbsColorimetric
  | AC_UseProfileIntent
  | AC_UseGStateIntent
  deriving DecidableEq, Repr

/-- The six coefficients of an affine transform: `x' = a x + c y + h`, `y' = b x + d y + v`. -/
structure ASDoubleMatrix where
  a : ℚ
  b : ℚ
  c : ℚ
  d : ℚ
  h : ℚ
  v : ℚ
  deriving DecidableEq

/-- A rectangle with real coordinates. -/
structure ASDoubleRect where
  left : ℚ
  top : ℚ
  right : ℚ
  bottom : ℚ
  deriving DecidableEq

/-- A rectangle with `ASFixed` coordinates, each held as its raw 32-bit integer. -/
structure ASFixedRect where
  left : Int
  top : Int
  right : Int
  bottom : Int
  deriving DecidableEq

/-- Modelled from the spec: the library conversion of an `ASFixed` (16.16) to a real number. -/
def ASFixedToFloat (x : Int) : ℚ := (x : ℚ) / 65536

/-- Conversion of a fixed rectangle to a real one, field by field. -/
def ASFixedRectToASDouble (r : ASFixedRect) : ASDoubleRect :=
  { left := ASFixedToFloat r.left
    right := ASFixedToFloat r.right
    top := ASFixedToFloat r.top
    bottom := ASFixedToFloat r.bottom }

/-- The image of the point `(x, y)` under a matrix. -/
def ASDoubleMatrix.apply (m : ASDoubleMatrix) (p : ℚ × ℚ) : ℚ × ℚ :=
  (m.a * p.1 + m.c * p.2 + m.h, m.b * p.1 + m.d * p.2 + m.v)

/-- Modelled from the spec: `ASDoubleMatrixConcat(result, m1, m2)` is a library call; its
result is the matrix that applies `m2` to a point first and `m1` second (the rotation, then
the flip, then the scale, in the order the constructor concatenates them). -/
def ASDoubleMatrixConcat (m1 m2 : ASDoubleMatrix) : ASDoubleMatrix :=
  { a := m2.a * m1.a + m2.b * m1.c
    b := m2.a * m1.b + m2.b * m1.d
    c := m2.c * m1.a + m2.d * m1.c
    d := m2.c * m1.b + m2.d * m1.d
    h := m2.h * m1.a + m2.v * m1.c + m1.h
    v := m2.h * m1.b + m2.v * m1.d + m1.v }

/-- Modelled from the spec: `ASDoubleMatrixTransformRect(result, m, r)` is a library call;
its result is the bounding box of the images of the four corners of `r`. -/
def ASDoubleMatrixTransformRect (m : ASDoubleMatrix) (r : ASDoubleRect) : ASDoubleRect :=
  let p1 := m.apply (r.left, r.bottom)
  let p2 := m.apply (r.left, r.top)
  let p3 := m.apply (r.right, r.bottom)
  let p4 := m.apply (r.right, r.top)
  { left := min (min p1.1 p2.1) (min p3.1 p4.1)
    right := max (max p1.1 p2.1) (max p3.1 p4.1)
    bottom := min (min p1.2 p2.2) (min p3.2 p4.2)
    top := max (max p1.2 p2.2) (max p3.2 p4.2) }

/-- A rectangle with single-precision coordinates. -/
structure ASRealRect where
  left : ℚ
  top : ℚ
  right : ℚ
  bottom : ℚ
  deriving DecidableEq

/-- The six single-precision coefficients of an affine transform. -/
structure ASRealMatrix where
  a : ℚ
  b : ℚ
  c : ℚ
  d : ℚ
  tx : ℚ
  ty : ℚ
  deriving DecidableEq

/-- The function `ASDoubleRectToASReal`: each field is converted to single precision. -/
def ASDoubleRectToASReal (r : ASDoubleRect) : ASRealRect :=
  { left := toASReal r.left
    right := toASReal r.right
    top := toASReal r.top
    bottom := toASReal r.bottom }

/-- The function `ASDoubleMatrixToASReal`: each coefficient is converted to single
precision. -/
def ASDoubleMatrixToASReal (m : ASDoubleMatrix) : ASRealMatrix :=
  { a := toASReal m.a
    b := toASReal m.b
    c := toASReal m.c
    d := toASReal m.d
    tx := toASReal m.h
    ty := toASReal m.v }

/-! ## RenderPageParams -/

/-- The fields of `RenderPageParams` (the two opaque handles `ocContext` and
`outputProfile` are left out: they are passed through to the library unchanged). -/
structure RenderPageParams where
  csAtom : ASAtom
  nComps : Int
  bitspercomp : Int
  res : ℚ
  smoothflags : Nat
  drawflags : Nat
  numfilters : Int
  ri : AC_RenderIntent
  bVerbose : Bool
  matrix : Option ASDoubleMatrix
  destRect : Option ASDoubleRect
  deriving DecidableEq

/-- The constructor `RenderPageParams::RenderPageParams()`; `csAtom` takes its in-class
initialiser `ASAtomNull`. -/
def RenderPageParams.new : RenderPageParams :=
  { csAtom := ASAtomNull
    nComps := 1
    bitspercomp := 8
    res := 72
    smoothflags := 0
    drawflags := 0
    numfilters := 0
    ri := AC_RenderIntent.AC_RelColorimetric
    bVerbose := false
    matrix := none
    destRect := none }

/-- The method `RenderPageParams::SetColorSpace(ASAtom)`: the outcome (`ok` or the error
raised) paired with the object as the call leaves it. The atom is stored before it is
examined. -/
def RenderPageParams.SetColorSpace (p : RenderPageParams) (atmColorSpace : ASAtom) :
    Except ASError Unit × RenderPageParams :=
  let p1 := { p with csAtom := atmColorSpace }
  if p1.csAtom = ASAtomFromString "DeviceGray" then
    (Except.ok (), { p1 with nComps := 1 })
  else if p1.csAtom = ASAtomFromString "DeviceRGB" then
    (Except.ok (), { p1 with nComps := 3 })
  else if p1.csAtom = ASAtomFromString "DeviceCMYK" then
    (Except.ok (), { p1 with nComps := 4 })
  else if p1.csAtom = ASAtomFromString "DeviceRGBA" then
    (Except.ok (), { p1 with nComps := 4 })
  else
    (Except.error ASError.genErrBadParm, p1)

/-- The accessor `ColorSpaceName()`. -/
def RenderPageParams.ColorSpaceName (p : RenderPageParams) : ASAtom := p.csAtom

/-- The accessor `NumComps()`. -/
def RenderPageParams.NumComps (p : RenderPageParams) : Int := p.nComps

/-- The method `RenderPageParams::setBitsPerComponents`. -/
def RenderPageParams.setBitsPerComponents (p : RenderPageParams) (bpc : Int) :
    RenderPageParams :=
  let p1 := { p with bitspercomp := bpc }
  if p1.csAtom = ASAtomFromString "DeviceRGB" ∨ p1.csAtom = ASAtomFromString "DeviceCMYK"
      ∨ p1.csAtom = ASAtomFromString "DeviceRGBA" then
    if p1.bitspercomp ≠ 8 then { p1 with bitspercomp := 8 } else p1
  else if p1.csAtom = ASAtomFromString "DeviceGray" then
    if p1.bitspercomp ≠ 1 ∧ p1.bitspercomp ≠ 8 ∧ p1.bitspercomp ≠ 24 then
      { p1 with bitspercomp := 8 }
    else p1
  else p1

/-- The accessor `BitsPerComponent()`. -/
def RenderPageParams.BitsPerComponent (p : RenderPageParams) : Int := p.bitspercomp

/-- The method `RenderPageParams::setResolution`. -/
def RenderPageParams.setResolution (p : RenderPageParams) (resolution : ℚ) :
    RenderPageParams :=
  let p1 := { p with res := 72 }
  if resolution > 0 then { p1 with res := resolution } else p1

/-- The accessor `Resolution()`. -/
def RenderPageParams.Resolution (p : RenderPageParams) : ℚ := p.res

/-- The method `RenderPageParams::setMatrix`. -/
def RenderPageParams.setMatrix (p : RenderPageParams) (m : Option ASDoubleMatrix) :
    RenderPageParams :=
  { p with matrix := m }

/-- The accessor `getMatrix()`. -/
def RenderPageParams.getMatrix (p : RenderPageParams) : Option ASDoubleMatrix := p.matrix

/-- The method `RenderPageParams::setDestRect`. -/
def RenderPageParams.setDestRect (p : RenderPageParams) (r : Option ASDoubleRect) :
    RenderPageParams :=
  { p with destRect := r }

/-- The accessor `getDestRect()`. -/
def RenderPageParams.getDestRect (p : RenderPageParams) : Option ASDoubleRect := p.destRect

/-- The method `RenderPageParams::setVerbose`. -/
def RenderPageParams.setVerbose (p : RenderPageParams) (verbose : Bool) : RenderPageParams :=
  { p with bVerbose := verbose }

/-- The accessor `verbose()`. -/
def RenderPageParams.verbose (p : RenderPageParams) : Bool := p.bVerbose

/-! ## RenderPage -/

/-- The fields of `PDEImageAttrs` that the sample computes. -/
structure PDEImageAttrs where
  width : Int
  height : Int
  bitsPerComponent : Int
  deriving DecidableEq

/-- The fields of `PDPageDrawMParamsRec` that the constructor fills in. A callback is
recorded by whether it is installed; a byte is a natural number below 256. -/
structure PDPageDrawMParamsRec where
  csAtom : ASAtom
  bpc : Int
  smoothFlags : Nat
  flags : Nat
  renderIntent : AC_RenderIntent
  asRealDestRect : ASRealRect
  asRealUpdateRect : ASRealRect
  asRealMatrix : ASRealMatrix
  progressProc : Bool
  cancelProc : Bool
  bufferSize : Nat
  buffer : Option (List Nat)
  deriving DecidableEq

/-- The library calls of the constructor whose results depend on the document and on the
machine: the drawing call (the size it returns and the buffer as the call leaves it) and
the allocator (whether an allocation of the given size succeeds). -/
structure Library where
  PDPageDrawContentsToMemoryWithParams : PDPageDrawMParamsRec → Nat × List Nat
  ASmalloc : Nat → Bool

/-- The data members of `RenderPage` that the sample computes. -/
structure RenderPage where
  attrs : PDEImageAttrs
  csAtom : ASAtom
  nComps : Int
  bufferSize : Nat
  bpc : Int
  buffer : List Nat
  padded : Bool
  deriving DecidableEq

/-- Lines 358-397 of the constructor: the matrix from user space to image space. -/
def RenderPage.updateMatrix (rotation : PDRotate) (fixedUpdateRect : ASFixedRect)
    (parms : RenderPageParams) : ASDoubleMatrix :=
  let scaleFactor : ℚ := parms.Resolution / 72
  match parms.getMatrix with
  | some srcM => { a := srcM.a, b := srcM.b, c := srcM.c, d := srcM.d, h := srcM.h, v := srcM.v }
  | none =>
    let fRectP := fixedUpdateRect
    let flipMatrix : ASDoubleMatrix :=
      { a := 1, b := 0, c := 0, d := -1, h := 0
        v := ASFixedToFloat (subFixed fRectP.top fRectP.bottom) }
    let scaleMatrix : ASDoubleMatrix :=
      { a := scaleFactor, b := 0, c := 0, d := scaleFactor, h := 0, v := 0 }
    let rf : ASDoubleMatrix × ASDoubleMatrix :=
      match rotation with
      | PDRotate.pdRotate0 =>
        ({ a := 1, b := 0, c := 0, d := 1
           h := -ASFixedToFloat fRectP.left, v := -ASFixedToFloat fRectP.bottom }, flipMatrix)
      | PDRotate.pdRotate90 =>
        ({ a := 0, b := -1, c := 1, d := 0
           h := -ASFixedToFloat fRectP.bottom, v := ASFixedToFloat fRectP.right },
         { flipMatrix with v := ASFixedToFloat (subFixed fRectP.right fRectP.left) })
      | PDRotate.pdRotate180 =>
        ({ a := -1, b := 0, c := 0, d := -1
           h := ASFixedToFloat fRectP.right, v := ASFixedToFloat fRectP.top }, flipMatrix)
      | PDRotate.pdRotate270 =>
        ({ a := 0, b := 1, c := -1, d := 0
           h := ASFixedToFloat fRectP.top, v := -ASFixedToFloat fRectP.left },
         { flipMatrix with v := ASFixedToFloat (subFixed fRectP.right fRectP.left) })
    let updateMatrix := ASDoubleMatrixConcat rf.2 rf.1
    ASDoubleMatrixConcat scaleMatrix updateMatrix

/-- Lines 402-415 of the constructor: the destination rectangle, in pixels. -/
def RenderPage.doubleDestRect (rotation : PDRotate) (fixedUpdateRect : ASFixedRect)
    (parms : RenderPageParams) : ASDoubleRect :=
  match parms.getDestRect with
  | some src => { left := src.left, bottom := src.bottom, right := src.right, top := src.top }
  | none =>
    ASDoubleMatrixTransformRect (RenderPage.updateMatrix rotation fixedUpdateRect parms)
      (ASFixedRectToASDouble fixedUpdateRect)

/-- The store `buffer[i] = v` for an index computed as an `ASInt32`; a store outside the
buffer is not modelled and leaves the buffer as it is. -/
def storeByte (buffer : List Nat) (i : Int) (v : Nat) : List Nat :=
  if 0 ≤ i then buffer.set i.toNat v else buffer

/-- The load `buffer[i]` for an index computed as an `ASInt32`; a load outside the buffer is
not modelled and yields 0. -/
def loadByte (buffer : List Nat) (i : Int) : Nat :=
  if 0 ≤ i then buffer.getD i.toNat 0 else 0

/-- The loop of lines 502-505: every fourth byte, from offset 3 on, is set to 0. The counter
`offset` is an `ASInt32`, compared with `bufferSize` after conversion to `ASSize_t`. The
first argument is the number of iterations still allowed; `bufferSize` of them always
suffice. -/
def alphaInit (bufferSize : Nat) : Nat → Int → List Nat → List Nat
  | 0, _, buffer => buffer
  | fuel + 1, offset, buffer =>
    if toASSize_t offset < bufferSize then
      alphaInit bufferSize fuel (addInt32 offset 4) (storeByte buffer (addInt32 offset 3) 0)
    else buffer

/-- Lines 416-422 of the constructor: the destination rectangle is converted to single
precision; then come the two assertions on it (a failed assertion ends the construction) and
the pixel dimensions of the image, rounded half up and converted to `ASInt32`. -/
def RenderPage.imageAttrs (rotation : PDRotate) (fixedUpdateRect : ASFixedRect)
    (parms : RenderPageParams) : Except ASError PDEImageAttrs :=
  let realDestRect :=
    ASDoubleRectToASReal (RenderPage.doubleDestRect rotation fixedUpdateRect parms)
  if truncASInt32 realDestRect.left ≠ 0 then Except.error ASError.assertionFailed
  else if truncASInt32 realDestRect.bottom ≠ 0 then Except.error ASError.assertionFailed
  else
    Except.ok
      { width := castASInt32 ⌊realDestRect.right + 1 / 2⌋
        height := castASInt32 ⌊realDestRect.top + 1 / 2⌋
        bitsPerComponent := parms.BitsPerComponent }

/-- Lines 428-470 of the constructor: the record handed to the drawing call, before a
buffer is attached to it; the rectangles and the matrix are converted to single
precision. -/
def RenderPage.drawParams (rotation : PDRotate) (fixedUpdateRect : ASFixedRect)
    (parms : RenderPageParams) : PDPageDrawMParamsRec :=
  { csAtom := parms.ColorSpaceName
    bpc := parms.BitsPerComponent
    smoothFlags := parms.smoothflags
    flags := parms.drawflags
    renderIntent := parms.ri
    asRealDestRect :=
      ASDoubleRectToASReal (RenderPage.doubleDestRect rotation fixedUpdateRect parms)
    asRealUpdateRect := ASDoubleRectToASReal (ASFixedRectToASDouble fixedUpdateRect)
    asRealMatrix :=
      ASDoubleMatrixToASReal (RenderPage.updateMatrix rotation fixedUpdateRect parms)
    progressProc := parms.verbose
    cancelProc := parms.verbose
    bufferSize := 0
    buffer := none }

/-- The constructor `RenderPage::RenderPage` (named `new` here): the geometry of lines
358-422, then the size query, the allocation, the initialisation of the buffer and the
drawing call that fills it. -/
def RenderPage.new (lib : Library) (rotation : PDRotate) (fixedUpdateRect : ASFixedRect)
    (parms : RenderPageParams) : Except ASError RenderPage :=
  let csAtom := parms.ColorSpaceName
  let nComps := parms.NumComps
  let bpc := parms.BitsPerComponent
  match RenderPage.imageAttrs rotation fixedUpdateRect parms with
  | Except.error e => Except.error e
  | Except.ok attrs =>
    let drawParams := RenderPage.drawParams rotation fixedUpdateRect parms
    let bufferSize := (lib.PDPageDrawContentsToMemoryWithParams drawParams).1
    if lib.ASmalloc bufferSize = false then Except.error ASError.genErrNoMemory
    else
      let buffer := List.replicate bufferSize 127
      let buffer :=
        if csAtom = ASAtomFromString "DeviceRGBA" then alphaInit bufferSize bufferSize 0 buffer
        else buffer
      let drawParams := { drawParams with bufferSize := bufferSize, buffer := some buffer }
      let buffer := (lib.PDPageDrawContentsToMemoryWithParams drawParams).2
      Except.ok
        { attrs := attrs
          csAtom := csAtom
          nComps := nComps
          bufferSize := bufferSize
          bpc := bpc
          buffer := buffer
          padded := decide (nComps % 4 ≠ 0) }

/-- The accessor `GetImageBufferSize()`. -/
def RenderPage.GetImageBufferSize (rp : RenderPage) : Nat := rp.bufferSize

/-- The accessor `GetImageBuffer()`. -/
def RenderPage.GetImageBuffer (rp : RenderPage) : List Nat := rp.buffer

/-- The row stride `createdWidth` of `GetPDEImage` (line 565): the row bits are multiplied
in `ASInt32`, converted to `ASSize_t`, and rounded up to whole 32-bit words. -/
def createdWidth (width bpc nComps : Int) : Nat :=
  ((toASSize_t (mulInt32 (mulInt32 width bpc) nComps) + 31) % 18446744073709551616 / 32) * 4
    % 18446744073709551616

/-- The row stride `desiredWidth` of `GetPDEImage` (line 566). -/
def desiredWidth (width bpc nComps : Int) : Nat :=
  toASSize_t (mulInt32 (mulInt32 width bpc) nComps) / 8

/-- A library for examples: the drawing call asks for 8 bytes and leaves the buffer as it
finds it; every allocation succeeds. -/
def sampleLibrary : Library :=
  { PDPageDrawContentsToMemoryWithParams := fun dp => (8, dp.buffer.getD [])
    ASmalloc := fun _ => true }

/-- A rectangle for examples: US Letter, 612 by 792 units, in raw `ASFixed`. -/
def letterRect : ASFixedRect :=
  { left := 0, bottom := 0, right := 612 * 65536, top := 792 * 65536 }

/-! ## GetPDEImage -/

/-- The callback `renderpageProgressProc`: it prints the progress and answers `TRUE`. -/
def renderpageProgressProc (_current : ℚ) (_name : String) (_stage : Int) : Bool := true

/-- The callback `renderpageCancelProc`: it prints a dot and answers `false`. -/
def renderpageCancelProc : Bool := false

/-- Lines 487-506 of the constructor: the allocated buffer is filled with 0x7F and, for
DeviceRGBA, the loop of `alphaInit` runs over it. This is the buffer handed to the drawing
call that fills the bitmap. -/
def RenderPage.initialBuffer (csAtom : ASAtom) (bufferSize : Nat) : List Nat :=
  let buffer := List.replicate bufferSize 127
  if csAtom = ASAtomFromString "DeviceRGBA" then alphaInit bufferSize bufferSize 0 buffer
  else buffer

/-- The library call `memmove(buffer + dst, buffer + src, n)` for ranges inside the buffer:
the `n` bytes from `dst` on take the values the buffer had from `src` on. -/
def memmove (buffer : List Nat) (dst src n : Nat) : List Nat :=
  (List.range buffer.length).map fun i =>
    if dst ≤ i ∧ i < dst + n then buffer.getD (src + (i - dst)) 0 else buffer.getD i 0

/-- The loop of lines 570-571, from `row` on; offsets are computed in `ASSize_t`. The first
argument is the number of iterations still allowed. -/
def compactLoop (desiredWidth createdWidth : Nat) (height : Int) :
    Nat → Nat → List Nat → List Nat
  | 0, _, buffer => buffer
  | fuel + 1, row, buffer =>
    if (row : Int) < height then
      compactLoop desiredWidth createdWidth height fuel (row + 1)
        (memmove buffer (row * desiredWidth % 18446744073709551616)
          (row * createdWidth % 18446744073709551616) desiredWidth)
    else buffer

/-- Lines 563-575 of `GetPDEImage`: the padding at the end of each row is removed, once. -/
def RenderPage.compact (rp : RenderPage) : RenderPage :=
  if rp.padded then
    let cw := createdWidth rp.attrs.width rp.bpc rp.nComps
    let dw := desiredWidth rp.attrs.width rp.bpc rp.nComps
    if cw ≠ dw then
      { rp with
        buffer := compactLoop dw cw rp.attrs.height rp.attrs.height.toNat 1 rp.buffer
        bufferSize := dw * toASSize_t rp.attrs.height % 18446744073709551616
        padded := false }
    else { rp with padded := false }
  else rp

/-- The body of the loop of lines 602-608 for one value of `Index`: the four indices are
computed in `ASInt32`. -/
def splitBody (buffer : List Nat) (out : List Nat × List Nat) (Index : Int) :
    List Nat × List Nat :=
  (storeByte
    (storeByte
      (storeByte out.1 (addInt32 (mulInt32 Index 3) 0)
        (loadByte buffer (addInt32 (mulInt32 Index 4) 0)))
      (addInt32 (mulInt32 Index 3) 1) (loadByte buffer (addInt32 (mulInt32 Index 4) 1)))
    (addInt32 (mulInt32 Index 3) 2) (loadByte buffer (addInt32 (mulInt32 Index 4) 2)),
   storeByte out.2 Index (loadByte buffer (addInt32 (mulInt32 Index 4) 3)))

/-- The loop of lines 602-608, from `Index` on: the pair of the color buffer and the alpha
buffer. The counter `Index` is an `ASInt32`, compared with `AlphaSize` after conversion to
`ASSize_t`. The first argument is the number of iterations still allowed. -/
def splitLoop (AlphaSize : Nat) (buffer : List Nat) :
    Nat → Int → List Nat × List Nat → List Nat × List Nat
  | 0, _, out => out
  | fuel + 1, Index, out =>
    if toASSize_t Index < AlphaSize then
      splitLoop AlphaSize buffer fuel (addInt32 Index 1) (splitBody buffer out Index)
    else out

/-- The arguments of a call of `PDEImageCreateEx` that the sample computes: the attributes,
the matrix, the name of the color space and the `dataSize` bytes of image data. -/
structure PDEImageData where
  attrs : PDEImageAttrs
  matrix : ASDoubleMatrix
  colorSpace : ASAtom
  data : List Nat
  deriving DecidableEq

/-- A `PDEImage` as the sample builds it: the image and, if `PDEImageSetSMask` was called,
its soft mask. -/
structure PDEImage where
  image : PDEImageData
  sMask : Option PDEImageData
  deriving DecidableEq

/-- Lines 578-585 of `GetPDEImage`: the image matrix of the rectangle passed in. -/
def imageMatrix (imageRect : ASFixedRect) : ASDoubleMatrix :=
  { a := ASFixedToFloat (subFixed imageRect.right imageRect.left)
    b := 0
    c := 0
    d := ASFixedToFloat (subFixed imageRect.top imageRect.bottom)
    h := ASFixedToFloat imageRect.left
    v := ASFixedToFloat imageRect.bottom }

/-- Lines 594-608 of `GetPDEImage`: the sizes, the two buffers (allocated with the sizes
computed in `ASInt32`) and the separation of the alpha bytes from the color bytes. The
result is the color data and the alpha data handed to `PDEImageCreateEx`. -/
def RenderPage.splitAlpha (rp : RenderPage) : List Nat × List Nat :=
  let AlphaSize := rp.bufferSize / 4
  let ColorSize := rp.bufferSize - AlphaSize
  let ColorBuffer :=
    List.replicate (toASSize_t (mulInt32 (mulInt32 rp.attrs.width rp.attrs.height) 3)) 0
  let AlphaBuffer := List.replicate (toASSize_t (mulInt32 rp.attrs.width rp.attrs.height)) 0
  let out := splitLoop AlphaSize rp.buffer AlphaSize 0 (ColorBuffer, AlphaBuffer)
  (out.1.take ColorSize, out.2.take AlphaSize)

/-- The method `RenderPage::GetPDEImage`: the object as the call leaves it, and the image. -/
def RenderPage.GetPDEImage (rp : RenderPage) (imageRect : ASFixedRect) :
    RenderPage × PDEImage :=
  let rp1 := rp.compact
  let m := imageMatrix imageRect
  if rp1.csAtom = ASAtomFromString "DeviceRGBA" then
    let out := rp1.splitAlpha
    (rp1,
     { image :=
         { attrs := rp1.attrs, matrix := m, colorSpace := ASAtomFromString "DeviceRGB"
           data := out.1 }
       sMask :=
         some { attrs := rp1.attrs, matrix := m, colorSpace := ASAtomFromString "DeviceGray"
                data := out.2 } })
  else
    (rp1,
     { image :=
         { attrs := rp1.attrs, matrix := m, colorSpace := rp1.csAtom
           data := rp1.buffer.take rp1.bufferSize }
       sMask := none })

/-- A library for examples that follows the row layout of the drawing call: it asks for
`height` rows of `createdWidth` bytes and fills the buffer with the bytes 0, 1, 2, ... -/
def rowLibrary : Library :=
  { PDPageDrawContentsToMemoryWithParams := fun dp =>
      let size :=
        createdWidth ⌊dp.asRealDestRect.right + 1 / 2⌋ dp.bpc
            (if dp.csAtom = ASAtomFromString "DeviceGray" then 1
             else if dp.csAtom = ASAtomFromString "DeviceRGB" then 3 else 4)
          * (⌊dp.asRealDestRect.top + 1 / 2⌋).toNat
      (size, (List.range size).map fun i => i % 256)
    ASmalloc := fun _ => true }

/-- An object for examples: 3 gray pixels of 8 bits in each of 2 rows padded to 4 bytes. -/
def grayPage : RenderPage :=
  { attrs := { width := 3, height := 2, bitsPerComponent := 8 }
    csAtom := ASAtomFromString "DeviceGray"
    nComps := 1
    bufferSize := 8
    bpc := 8
    buffer := [10, 11, 12, 0, 20, 21, 22, 0]
    padded := true }

/-- An object for examples: 2 pixels of DeviceRGBA in one row. -/
def rgbaPage : RenderPage :=
  { attrs := { width := 2, height := 1, bitsPerComponent := 8 }
    csAtom := ASAtomFromString "DeviceRGBA"
    nComps := 4
    bufferSize := 8
    bpc := 8
    buffer := [1, 2, 3, 4, 5, 6, 7, 8]
    padded := false }

/-- An object for examples: 3 gray pixels of 1 bit in each of 2 rows padded to 4 bytes. -/
def bilevelPage : RenderPage :=
  { attrs := { width := 3, height := 2, bitsPerComponent := 1 }
    csAtom := ASAtomFromString "DeviceGray"
    nComps := 1
    bufferSize := 8
    bpc := 1
    buffer := [160, 0, 0, 0, 64, 0, 0, 0]
    padded := true }

/-- An object for examples: one row of 612 pixels of DeviceRGB, 1836 bytes. -/
def rgbRowPage : RenderPage :=
  { attrs := { width := 612, height := 1, bitsPerComponent := 8 }
    csAtom := ASAtomFromString "DeviceRGB"
    nComps := 3
    bufferSize := 1836
    bpc := 8
    buffer := List.replicate 1836 255
    padded := true }

/-- A library for examples whose size query answers 0; every allocation succeeds. -/
def zeroLibrary : Library :=
  { PDPageDrawContentsToMemoryWithParams := fun dp => (0, dp.buffer.getD [])
    ASmalloc := fun _ => true }

/-- Parameters for examples: DeviceGray at 8 bits and 72 dpi. -/
def grayParams : RenderPageParams :=
  (RenderPageParams.new.SetColorSpace (ASAtomFromString "DeviceGray")).2

/-- A rectangle for examples: 3 units wide and 2 high, in raw `ASFixed`. -/
def smallRect : ASFixedRect :=
  { left := 0, bottom := 0, right := 3 * 65536, top := 2 * 65536 }

/-- An object for examples: what the constructor builds from `rowLibrary` for 3 gray pixels
in each of 2 rows. -/
def rowGrayPage : RenderPage :=
  { attrs := { width := 3, height := 2, bitsPerComponent := 8 }
    csAtom := ASAtomFromString "DeviceGray"
    nComps := 1
    bufferSize := 8
    bpc := 8
    buffer := [0, 1, 2, 3, 4, 5, 6, 7]
    padded := true }

/-- The compaction as the specification words it (step 7 of Rasterize): the two strides are
always compared and, if they differ, the rows are compacted and the size is shrunk; there is
no padded flag to consult. -/
def RenderPage.compactUnguarded (rp : RenderPage) : RenderPage :=
  let cw := createdWidth rp.attrs.width rp.bpc rp.nComps
  let dw := desiredWidth rp.attrs.width rp.bpc rp.nComps
  if cw ≠ dw then
    { rp with
      buffer := compactLoop dw cw rp.attrs.height rp.attrs.height.toNat 1 rp.buffer
      bufferSize := dw * toASSize_t rp.attrs.height % 18446744073709551616
      padded := false }
  else { rp with padded := false }

/-- The values of `Index` for which the body of the loop of `splitLoop` runs, in order. -/
def splitLoopSteps (AlphaSize : Nat) : Nat → Int → List Int
  | 0, _ => []
  | fuel + 1, Index =>
    if toASSize_t Index < AlphaSize then
      Index :: splitLoopSteps AlphaSize fuel (addInt32 Index 1)
    else []

/-! ## The main flow of RenderPageToImage (`mainproc.cpp`) -/

/-- Lines 294-303 of `main`: the rectangle of the exported image; the members of an
`ASFixedRect` are initialised in the order left, top, right, bottom. -/
def fOutRect (rotation : PDRotate) (fCropRect : ASFixedRect) : ASFixedRect :=
  if rotation = PDRotate.pdRotate90 ∨ rotation = PDRotate.pdRotate270 then
    ASFixedRect.mk fCropRect.bottom fCropRect.right fCropRect.top fCropRect.left
  else fCropRect

/-! ## The PageResize sample (`pageResize.cpp`) -/

/-- The constant `fixedZero`. -/
def fixedZero : Int := 0

/-- The function `sizeNewPage`: the rectangle it fills in. Differences of `ASFixed` values
are computed in 32-bit arithmetic. -/
def sizeNewPage (fOldMediaBox : ASFixedRect) (dim1 dim2 : Int) : ASFixedRect :=
  let biggerDim := if dim1 > dim2 then dim1 else dim2
  let smallerDim := if dim1 > dim2 then dim2 else dim1
  if subFixed fOldMediaBox.top fOldMediaBox.bottom
      > subFixed fOldMediaBox.right fOldMediaBox.left then
    { right := smallerDim, top := biggerDim, left := fixedZero, bottom := fixedZero }
  else
    { right := biggerDim, top := smallerDim, left := fixedZero, bottom := fixedZero }

/-- The scaling factor of `calcScalingMatrix` before the test of line 65, for an old media
box of nonzero width and height (a division by zero, which yields an infinity in the source,
is outside the model: the rationals give 0). -/
def scalingFactor (fOldMediaBox fNewMediaBox : ASFixedRect) : ℚ :=
  let fOldWidth := subFixed fOldMediaBox.right fOldMediaBox.left
  let fNewWidth := subFixed fNewMediaBox.right fNewMediaBox.left
  let fOldHeight := subFixed fOldMediaBox.top fOldMediaBox.bottom
  let fNewHeight := subFixed fNewMediaBox.top fNewMediaBox.bottom
  let widthScaling := ASFixedToFloat fNewWidth / ASFixedToFloat fOldWidth
  let heightScaling := ASFixedToFloat fNewHeight / ASFixedToFloat fOldHeight
  min widthScaling heightScaling

/-- The function `calcScalingMatrix`: the matrix it fills in. -/
def calcScalingMatrix (fOldMediaBox fNewMediaBox : ASFixedRect) : ASDoubleMatrix :=
  let fOldWidth := subFixed fOldMediaBox.right fOldMediaBox.left
  let fNewWidth := subFixed fNewMediaBox.right fNewMediaBox.left
  let fOldHeight := subFixed fOldMediaBox.top fOldMediaBox.bottom
  let fNewHeight := subFixed fNewMediaBox.top fNewMediaBox.bottom
  let ScalingFactor := scalingFactor fOldMediaBox fNewMediaBox
  let ScalingFactor :=
    if ScalingFactor > 1 ∧ (1 - ScalingFactor) < 1 / 10 then 1 else ScalingFactor
  let scaledWidth := ScalingFactor * ASFixedToFloat fOldWidth
  let scaledHeight := ScalingFactor * ASFixedToFloat fOldHeight
  let leftOffset :=
    ASFixedToFloat fNewMediaBox.left + (1 / 2) * (ASFixedToFloat fNewWidth - scaledWidth)
  let bottomOffset :=
    ASFixedToFloat fNewMediaBox.bottom + (1 / 2) * (ASFixedToFloat fNewHeight - scaledHeight)
  { a := ScalingFactor, b := 0, c := 0, d := ScalingFactor, h := leftOffset, v := bottomOffset }

/-- A rectangle for examples: 100 units square, in raw `ASFixed`. -/
def squareRect : ASFixedRect :=
  { left := 0, bottom := 0, right := 100 * 65536, top := 100 * 65536 }

/-- A rectangle for examples: US Letter moved by 100 units in both directions. -/
def shiftedLetterRect : ASFixedRect :=
  { left := 100 * 65536, bottom := 100 * 65536, right := 712 * 65536, top := 892 * 65536 }

/-- A rectangle for examples: the new page of `main`, 306 by 396 units. -/
def halfLetterRect : ASFixedRect :=
  { left := 0, bottom := 0, right := 306 * 65536, top := 396 * 65536 }

/-- An object for examples: 24000 by 24000 pixels of DeviceRGBA, every byte 255. -/
def bigRgbaPage : RenderPage :=
  { attrs := { width := 24000, height := 24000, bitsPerComponent := 8 }
    csAtom := ASAtomFromString "DeviceRGBA"
    nComps := 4
    bufferSize := 2304000000
    bpc := 8
    buffer := List.replicate 2304000000 255
    padded := false }

/-- Parameters for examples: DeviceRGB at 8 bits and 72 dpi. -/
def rgbParams : RenderPageParams :=
  (RenderPageParams.new.SetColorSpace (ASAtomFromString "DeviceRGB")).2

/-! ## Lemmas on machine integers -/

theorem wrapInt32_eq_self (x : Int) (h0 : -2147483648 ≤ x) (h1 : x < 2147483648) :
    wrapInt32 x = x := by
  unfold wrapInt32
  omega

theorem wrapInt32_mul_wrapInt32 (a n : Int) :
    wrapInt32 (wrapInt32 a * n) = wrapInt32 (a * n) := by
  unfold wrapInt32
  have h : ((a + 2147483648) % 4294967296 - 2147483648) * n + 2147483648
      = (a * n + 2147483648) - 4294967296 * (((a + 2147483648) / 4294967296) * n) := by
    rw [Int.emod_def]; ring
  rw [h]
  congr 1
  rw [Int.sub_eq_add_neg, Int.add_neg_mul_emod_self_left]

theorem mulInt32_mulInt32 (w b n : Int) (h0 : 0 ≤ w * b * n) (h1 : w * b * n < 2147483648) :
    mulInt32 (mulInt32 w b) n = w * b * n := by
  unfold mulInt32
  rw [wrapInt32_mul_wrapInt32]
  exact wrapInt32_eq_self _ (by omega) h1

theorem castASInt32_eq_zero_iff (z : Int) : castASInt32 z = 0 ↔ z = 0 := by
  unfold castASInt32
  split_ifs with h
  · rfl
  · constructor
    · intro h0; norm_num at h0
    · intro h0; subst h0; norm_num at h

theorem truncASInt32_eq_zero_iff (x : ℚ) : truncASInt32 x = 0 ↔ -1 < x ∧ x < 1 := by
  unfold truncASInt32
  rw [castASInt32_eq_zero_iff]
  split_ifs with h
  · rw [Int.floor_eq_iff]
    constructor
    · rintro ⟨_, h2⟩; constructor <;> norm_num at * <;> linarith
    · rintro ⟨_, h2⟩; constructor <;> norm_num at * <;> linarith
  · rw [Int.ceil_eq_iff]
    push_neg at h
    constructor
    · rintro ⟨h1, _⟩; constructor <;> norm_num at * <;> linarith
    · rintro ⟨h1, _⟩; constructor <;> norm_num at * <;> linarith

/-- Known single-precision values: 1/10 becomes 13421773 / 2^27, a value just below a half
pixel is rounded up to it, a tie goes to the even mantissa, and 1 - 2^-31 becomes 1. -/
theorem toASReal_samples :
    toASReal (1 / 10) = 13421773 / 134217728
    ∧ toASReal (65568767 / 65536) = 2001 / 2
    ∧ toASReal (1 + 1 / 16777216) = 1
    ∧ toASReal (1 + 3 / 16777216) = 1 + 4 / 16777216
    ∧ toASReal (1 - 1 / 2147483648) = 1
    ∧ toASReal (-5 / 2) = -5 / 2
    ∧ toASReal 3000000000 = 3000000000 := by
  decide!

/-! ## Lemmas on the derived transform -/

/-- The object built by the constructor carries the attributes of the geometry stage. -/
theorem new_attrs (lib : Library) (rotation : PDRotate) (r : ASFixedRect)
    (parms : RenderPageParams) (rp : RenderPage)
    (h : RenderPage.new lib rotation r parms = Except.ok rp) :
    RenderPage.imageAttrs rotation r parms = Except.ok rp.attrs := by
  unfold RenderPage.new at h
  cases hA : RenderPage.imageAttrs rotation r parms with
  | error e => simp [hA] at h
  | ok attrs =>
    simp only [hA] at h
    split_ifs at h <;>
      (injection h with h; rw [← h])

/-- Counterexample to C4 as stated: an override matrix whose coefficient a is 1 + 2^-30, not
a single-precision value, reaches the drawing call with a = 1. -/
theorem C4_override_matrix_narrowed :
    (RenderPage.drawParams PDRotate.pdRotate0 letterRect
        (rgbParams.setMatrix
          (some { a := 1 + 1 / 1073741824, b := 0, c := 0, d := 1, h := 0, v := 0 }))).asRealMatrix
      = { a := 1, b := 0, c := 0, d := 1, tx := 0, ty := 0 }
    ∧ (1 : ℚ) ≠ 1 + 1 / 1073741824 := by
  decide!

/-- Claim C4, as the code has it: when an override matrix is set with `setMatrix`, the
transform computed by the constructor is that matrix, coefficient for coefficient, for every
rotation, source rectangle and resolution: no rotation, flip or scale is composed onto it;
the matrix in the record handed to the drawing call is its conversion to single precision,
coefficient by coefficient. -/
theorem C4_override_matrix_verbatim (rotation : PDRotate) (r : ASFixedRect)
    (parms : RenderPageParams) (m : ASDoubleMatrix) :
    RenderPage.updateMatrix rotation r (parms.setMatrix (some m)) = m
    ∧ (RenderPage.drawParams rotation r (parms.setMatrix (some m))).asRealMatrix
        = ASDoubleMatrixToASReal m
    ∧ (RenderPage.drawParams rotation r (parms.setMatrix (some m))).asRealMatrix
        = { a := toASReal m.a, b := toASReal m.b, c := toASReal m.c, d := toASReal m.d
            tx := toASReal m.h, ty := toASReal m.v } := by
  have h1 : RenderPage.updateMatrix rotation r (parms.setMatrix (some m)) = m := by
    simp [RenderPage.updateMatrix, RenderPageParams.setMatrix, RenderPageParams.getMatrix]
  refine ⟨h1, ?_, ?_⟩
  · unfold RenderPage.drawParams
    simp only [h1]
  · unfold RenderPage.drawParams
    simp only [h1]
    rfl

/-- Claim C5, as the code has it: when an override destination rectangle is set with
`setDestRect`, the destination rectangle of the constructor is that rectangle, field for
field, and the one handed to the drawing call is its conversion to single precision; the
converted rectangle passes the two assertions exactly when the integer parts of its left and
bottom are 0, and the pixel width and height are then ⌊fl right + 1/2⌋ and ⌊fl top + 1/2⌋
converted to `ASInt32`, fl being the conversion to single precision, whatever the transform,
the source rectangle, the rotation and the resolution. Otherwise the construction ends on a
failed assertion. -/
theorem C5_override_rect (rotation : PDRotate) (r : ASFixedRect)
    (parms : RenderPageParams) (d : ASDoubleRect) :
    RenderPage.doubleDestRect rotation r (parms.setDestRect (some d)) = d
    ∧ (RenderPage.drawParams rotation r (parms.setDestRect (some d))).asRealDestRect
        = ASDoubleRectToASReal d
    ∧ RenderPage.imageAttrs rotation r (parms.setDestRect (some d))
      = (if truncASInt32 (toASReal d.left) = 0 ∧ truncASInt32 (toASReal d.bottom) = 0 then
          Except.ok
            { width := castASInt32 ⌊toASReal d.right + 1 / 2⌋
              height := castASInt32 ⌊toASReal d.top + 1 / 2⌋
              bitsPerComponent := parms.BitsPerComponent }
        else Except.error ASError.assertionFailed) := by
  have h1 : RenderPage.doubleDestRect rotation r (parms.setDestRect (some d)) = d := by
    simp [RenderPage.doubleDestRect, RenderPageParams.setDestRect, RenderPageParams.getDestRect]
  refine ⟨h1, ?_, ?_⟩
  · unfold RenderPage.drawParams
    simp only [h1]
  · unfold RenderPage.imageAttrs ASDoubleRectToASReal
    simp only [h1]
    by_cases hl : truncASInt32 (toASReal d.left) = 0 <;>
      by_cases hb : truncASInt32 (toASReal d.bottom) = 0 <;>
      simp [hl, hb, RenderPageParams.setDestRect, RenderPageParams.BitsPerComponent]

/-- Counterexample to C5 as stated: the override rectangle (5, 0, 10, 10) is not accepted;
the construction ends on the first assertion. -/
theorem C5_override_rect_rejected :
    RenderPage.imageAttrs PDRotate.pdRotate0 letterRect
        (RenderPageParams.new.setDestRect (some { left := 5, bottom := 0, right := 10, top := 10 }))
      = Except.error ASError.assertionFailed
    ∧ RenderPage.new sampleLibrary PDRotate.pdRotate0 letterRect
        (RenderPageParams.new.setDestRect (some { left := 5, bottom := 0, right := 10, top := 10 }))
      = Except.error ASError.assertionFailed := by
  constructor <;> decide!

/-! ## RenderPageParams -/

/-- Claim C6: `setBitsPerComponents v` stores 8 for every `v` when the current color model
is RGB, CMYK or RGBA; when it is Gray it stores `v` if `v` is 1, 8 or 24, and 8 otherwise. -/
theorem C6_setBitsPerComponents (p : RenderPageParams) (v : Int) :
    ((p.ColorSpaceName = ASAtomFromString "DeviceRGB"
        ∨ p.ColorSpaceName = ASAtomFromString "DeviceCMYK"
        ∨ p.ColorSpaceName = ASAtomFromString "DeviceRGBA") →
      (p.setBitsPerComponents v).BitsPerComponent = 8)
    ∧ (p.ColorSpaceName = ASAtomFromString "DeviceGray" →
      (p.setBitsPerComponents v).BitsPerComponent
        = if v = 1 ∨ v = 8 ∨ v = 24 then v else 8) := by
  constructor
  · intro h
    have h' : p.csAtom = ASAtomFromString "DeviceRGB" ∨ p.csAtom = ASAtomFromString "DeviceCMYK"
        ∨ p.csAtom = ASAtomFromString "DeviceRGBA" := h
    unfold RenderPageParams.setBitsPerComponents RenderPageParams.BitsPerComponent
    simp only [if_pos h']
    by_cases hv : v = 8 <;> simp [hv]
  · intro h
    have h' : p.csAtom = ASAtomFromString "DeviceGray" := h
    have hn : ¬ (p.csAtom = ASAtomFromString "DeviceRGB"
        ∨ p.csAtom = ASAtomFromString "DeviceCMYK"
        ∨ p.csAtom = ASAtomFromString "DeviceRGBA") := by
      rw [h']; decide
    unfold RenderPageParams.setBitsPerComponents RenderPageParams.BitsPerComponent
    simp only [if_neg hn, if_pos h']
    by_cases h1 : v = 1
    · simp [h1]
    · by_cases h8 : v = 8
      · simp [h8]
      · by_cases h24 : v = 24
        · simp [h24]
        · simp [h1, h8, h24]

/-- Witness of C6: 5 bits are reset to 8 for RGB, 24 bits are kept for Gray. -/
theorem C6_setBitsPerComponents_witness :
    ((RenderPageParams.new.SetColorSpace (ASAtomFromString "DeviceRGB")).2.setBitsPerComponents
        5).BitsPerComponent = 8
    ∧ ((RenderPageParams.new.SetColorSpace (ASAtomFromString "DeviceGray")).2.setBitsPerComponents
        24).BitsPerComponent = 24 :=
  ⟨(C6_setBitsPerComponents
      (RenderPageParams.new.SetColorSpace (ASAtomFromString "DeviceRGB")).2 5).1
      (Or.inl (by decide)),
   ((C6_setBitsPerComponents
      (RenderPageParams.new.SetColorSpace (ASAtomFromString "DeviceGray")).2 24).2
      (by decide)).trans (by decide)⟩

/-- Claim C7 at its failing input: after `SetColorSpace` Gray, `setBitsPerComponents 24` and
`SetColorSpace` RGB, all of which succeed, the stored color model is RGB with 3 components
and the stored bits per component is 24, which is not legal for RGB. -/
theorem C7_bits_not_renormalised :
    (((RenderPageParams.new.SetColorSpace (ASAtomFromString "DeviceGray")).2.setBitsPerComponents
        24).SetColorSpace (ASAtomFromString "DeviceRGB")).1 = Except.ok ()
    ∧ (((RenderPageParams.new.SetColorSpace
        (ASAtomFromString "DeviceGray")).2.setBitsPerComponents
        24).SetColorSpace (ASAtomFromString "DeviceRGB")).2.ColorSpaceName
      = ASAtomFromString "DeviceRGB"
    ∧ (((RenderPageParams.new.SetColorSpace
        (ASAtomFromString "DeviceGray")).2.setBitsPerComponents
        24).SetColorSpace (ASAtomFromString "DeviceRGB")).2.NumComps = 3
    ∧ (((RenderPageParams.new.SetColorSpace
        (ASAtomFromString "DeviceGray")).2.setBitsPerComponents
        24).SetColorSpace (ASAtomFromString "DeviceRGB")).2.BitsPerComponent = 24 := by
  decide

/-- Claim C8: `SetColorSpace name` succeeds iff `name` is one of DeviceGray, DeviceRGB,
DeviceCMYK and DeviceRGBA; on success `NumComps()` is 1, 3, 4, 4 respectively and
`ColorSpaceName()` is `name`; for every other name it raises the bad-parameter error. -/
theorem C8_SetColorSpace (p : RenderPageParams) (name : String) :
    ((p.SetColorSpace (ASAtomFromString name)).1 = Except.ok ()
      ↔ name = "DeviceGray" ∨ name = "DeviceRGB" ∨ name = "DeviceCMYK" ∨ name = "DeviceRGBA")
    ∧ (name = "DeviceGray" → (p.SetColorSpace (ASAtomFromString name)).2.NumComps = 1)
    ∧ (name = "DeviceRGB" → (p.SetColorSpace (ASAtomFromString name)).2.NumComps = 3)
    ∧ (name = "DeviceCMYK" → (p.SetColorSpace (ASAtomFromString name)).2.NumComps = 4)
    ∧ (name = "DeviceRGBA" → (p.SetColorSpace (ASAtomFromString name)).2.NumComps = 4)
    ∧ ((p.SetColorSpace (ASAtomFromString name)).1 = Except.ok () →
        (p.SetColorSpace (ASAtomFromString name)).2.ColorSpaceName = ASAtomFromString name)
    ∧ (¬ (name = "DeviceGray" ∨ name = "DeviceRGB" ∨ name = "DeviceCMYK"
          ∨ name = "DeviceRGBA") →
        (p.SetColorSpace (ASAtomFromString name)).1 = Except.error ASError.genErrBadParm) := by
  have hname : ∀ q : Except ASError Unit × RenderPageParams,
      q = p.SetColorSpace (ASAtomFromString name) →
      q.2.ColorSpaceName = ASAtomFromString name := by
    intro q hq
    rw [hq]
    unfold RenderPageParams.SetColorSpace RenderPageParams.ColorSpaceName
    simp only
    split_ifs <;> rfl
  refine ⟨?_, ?_, ?_, ?_, ?_, fun _ => hname _ rfl, ?_⟩
  · unfold RenderPageParams.SetColorSpace ASAtomFromString
    simp only
    by_cases h1 : name = "DeviceGray"
    · simp [h1]
    · by_cases h2 : name = "DeviceRGB"
      · simp [h2]
      · by_cases h3 : name = "DeviceCMYK"
        · simp [h3]
        · by_cases h4 : name = "DeviceRGBA"
          · simp [h4]
          · simp [h1, h2, h3, h4]
  · intro h; subst h
    simp [RenderPageParams.SetColorSpace, ASAtomFromString, RenderPageParams.NumComps]
  · intro h; subst h
    simp [RenderPageParams.SetColorSpace, ASAtomFromString, RenderPageParams.NumComps]
  · intro h; subst h
    simp [RenderPageParams.SetColorSpace, ASAtomFromString, RenderPageParams.NumComps]
  · intro h; subst h
    simp [RenderPageParams.SetColorSpace, ASAtomFromString, RenderPageParams.NumComps]
  · intro h
    push_neg at h
    unfold RenderPageParams.SetColorSpace ASAtomFromString
    simp [h.1, h.2.1, h.2.2.1, h.2.2.2]

/-- Witness of C8: DeviceCMYK is accepted with 4 components, Lab is refused. -/
theorem C8_SetColorSpace_witness :
    (RenderPageParams.new.SetColorSpace (ASAtomFromString "DeviceCMYK")).1 = Except.ok ()
    ∧ (RenderPageParams.new.SetColorSpace (ASAtomFromString "DeviceCMYK")).2.NumComps = 4
    ∧ (RenderPageParams.new.SetColorSpace (ASAtomFromString "DeviceCMYK")).2.ColorSpaceName
        = ASAtomFromString "DeviceCMYK"
    ∧ (RenderPageParams.new.SetColorSpace (ASAtomFromString "Lab")).1
        = Except.error ASError.genErrBadParm :=
  ⟨(C8_SetColorSpace RenderPageParams.new "DeviceCMYK").1.2 (by decide),
   (C8_SetColorSpace RenderPageParams.new "DeviceCMYK").2.2.2.1 rfl,
   (C8_SetColorSpace RenderPageParams.new "DeviceCMYK").2.2.2.2.2.1
     ((C8_SetColorSpace RenderPageParams.new "DeviceCMYK").1.2 (by decide)),
   (C8_SetColorSpace RenderPageParams.new "Lab").2.2.2.2.2.2 (by decide)⟩

/-- Claim C9: a new `RenderPageParams` has resolution 72; after `setResolution r` the
resolution is `r` if `r > 0` and 72 otherwise, whatever was stored before; so the stored
resolution is always positive. -/
theorem C9_resolution (p : RenderPageParams) (r : ℚ) :
    RenderPageParams.new.Resolution = 72
    ∧ (p.setResolution r).Resolution = (if r > 0 then r else 72)
    ∧ 0 < RenderPageParams.new.Resolution
    ∧ 0 < (p.setResolution r).Resolution := by
  have h : (p.setResolution r).Resolution = (if r > 0 then r else 72) := by
    unfold RenderPageParams.setResolution RenderPageParams.Resolution
    split_ifs <;> rfl
  refine ⟨rfl, h, by norm_num [RenderPageParams.new, RenderPageParams.Resolution], ?_⟩
  rw [h]
  split_ifs with hr
  · exact hr
  · norm_num

/-! ## Row strides -/

/-- Without overflow, the created row stride is `(bits + 31) / 32 * 4`. -/
theorem createdWidth_eq (width bpc nComps : Int) (h0 : 0 ≤ width * bpc * nComps)
    (h1 : width * bpc * nComps < 2147483648) :
    (createdWidth width bpc nComps : Int) = (width * bpc * nComps + 31) / 32 * 4 := by
  unfold createdWidth
  rw [mulInt32_mulInt32 width bpc nComps h0 h1]
  generalize width * bpc * nComps = P at h0 h1
  unfold toASSize_t
  omega

/-- Claim C10: for every width ≥ 0, bits per component and channel count (nonnegative, their
product below 2^31), the created row stride of `GetPDEImage` is ⌈bits / 32⌉ * 4 for
bits = width * bpc * nComps: it is a multiple of 4, it holds that many bits, and no smaller
multiple of 4 bytes does. -/
theorem C10_createdWidth (width bpc nComps : Int) (hw : 0 ≤ width) (hb : 0 ≤ bpc)
    (hn : 0 ≤ nComps) (hp : width * bpc * nComps < 2147483648) :
    (createdWidth width bpc nComps : Int) = ⌈((width * bpc * nComps : Int) : ℚ) / 32⌉ * 4
    ∧ 4 ∣ createdWidth width bpc nComps
    ∧ width * bpc * nComps ≤ 8 * (createdWidth width bpc nComps : Int)
    ∧ ∀ m : Nat, 4 ∣ m → width * bpc * nComps ≤ 8 * (m : Int) →
        createdWidth width bpc nComps ≤ m := by
  have h0 : 0 ≤ width * bpc * nComps := mul_nonneg (mul_nonneg hw hb) hn
  have he := createdWidth_eq width bpc nComps h0 hp
  generalize width * bpc * nComps = P at h0 hp he ⊢
  generalize createdWidth width bpc nComps = c at he ⊢
  have hceil : ⌈(P : ℚ) / 32⌉ = (P + 31) / 32 := by
    rw [Int.ceil_eq_iff]
    have q1 : 32 * ((P + 31) / 32) ≤ P + 31 := Int.mul_ediv_self_le (by norm_num)
    have q2 : P + 31 < 32 * ((P + 31) / 32) + 32 := Int.lt_mul_ediv_self_add (by norm_num)
    have q3 : P ≤ 32 * ((P + 31) / 32) := by omega
    have q1' : (32 : ℚ) * (((P + 31) / 32 : Int) : ℚ) ≤ (P : ℚ) + 31 := by exact_mod_cast q1
    have q2' : (P : ℚ) ≤ 32 * (((P + 31) / 32 : Int) : ℚ) := by exact_mod_cast q3
    constructor
    · linarith
    · linarith
  refine ⟨by rw [hceil, he], ?_, ?_, ?_⟩
  · omega
  · omega
  · intro m hm hle
    omega

/-- Witness of C10: 612 pixels of 3 components of 8 bits need rows of 1836 bytes. -/
theorem C10_createdWidth_witness :
    (createdWidth 612 8 3 : Int) = ⌈(((612 : Int) * 8 * 3 : Int) : ℚ) / 32⌉ * 4
    ∧ 4 ∣ createdWidth 612 8 3
    ∧ (612 : Int) * 8 * 3 ≤ 8 * (createdWidth 612 8 3 : Int)
    ∧ ∀ m : Nat, 4 ∣ m → (612 : Int) * 8 * 3 ≤ 8 * (m : Int) → createdWidth 612 8 3 ≤ m :=
  C10_createdWidth 612 8 3 (by decide) (by decide) (by decide) (by decide)

/-! ## Lemmas on buffers -/

theorem getD_set_zero (l : List Nat) (i j a : Nat) :
    (l.set i a).getD j 0 = if i = j ∧ i < l.length then a else l.getD j 0 := by
  rw [List.getD_eq_getElem?_getD, List.getD_eq_getElem?_getD, List.getElem?_set]
  by_cases h : i = j
  · subst h
    by_cases h2 : i < l.length
    · rw [if_pos rfl, if_pos h2, if_pos ⟨rfl, h2⟩]
      rfl
    · rw [if_pos rfl, if_neg h2, if_neg (fun hc => h2 hc.2),
        List.getElem?_eq_none (Nat.le_of_not_lt h2)]
  · rw [if_neg h, if_neg (fun hc => h hc.1)]

theorem getElem?_eq_some_getD (l : List Nat) (i : Nat) (h : i < l.length) :
    l[i]? = some (l.getD i 0) := by
  simp [List.getD_eq_getElem?_getD, List.getElem?_eq_getElem h]

theorem getD_zero_of_length_le (l : List Nat) (i : Nat) (h : l.length ≤ i) :
    l.getD i 0 = 0 := by
  simp [List.getD_eq_getElem?_getD, List.getElem?_eq_none h]

theorem length_memmove (b : List Nat) (dst src n : Nat) :
    (memmove b dst src n).length = b.length := by
  simp [memmove]

theorem getD_memmove_inside (b : List Nat) (dst src n i : Nat) (h1 : dst ≤ i)
    (h2 : i < dst + n) (h3 : i < b.length) :
    (memmove b dst src n).getD i 0 = b.getD (src + (i - dst)) 0 := by
  unfold memmove
  rw [List.getD_eq_getElem?_getD, List.getElem?_map, List.getElem?_range h3]
  simp [h1, h2]

theorem getD_memmove_outside (b : List Nat) (dst src n i : Nat)
    (h : ¬ (dst ≤ i ∧ i < dst + n)) :
    (memmove b dst src n).getD i 0 = b.getD i 0 := by
  by_cases h3 : i < b.length
  · unfold memmove
    rw [List.getD_eq_getElem?_getD, List.getElem?_map, List.getElem?_range h3]
    simp [h]
  · rw [getD_zero_of_length_le _ _ (by rw [length_memmove]; omega),
      getD_zero_of_length_le _ _ (by omega)]

/-- The loop of `compactLoop` moves every remaining row to its compacted place and leaves
the rows already moved where they are. -/
theorem compactLoop_spec (o : List Nat) (d c : Nat) (height : Int) (hdc : d ≤ c)
    (hrow : ∀ r : Nat, (r : Int) < height → r * c + c ≤ o.length)
    (hlt : o.length < 18446744073709551616) :
    ∀ (fuel row : Nat) (b : List Nat), height ≤ (row : Int) + fuel → b.length = o.length →
      (∀ r k, r < row → k < d → b.getD (r * d + k) 0 = o.getD (r * c + k) 0) →
      (∀ i, row * d ≤ i → b.getD i 0 = o.getD i 0) →
      (compactLoop d c height fuel row b).length = o.length
      ∧ ∀ r k, (r < row ∨ (r : Int) < height) → k < d →
          (compactLoop d c height fuel row b).getD (r * d + k) 0 = o.getD (r * c + k) 0 := by
  intro fuel
  induction fuel with
  | zero =>
    intro row b hf hb h1 _
    refine ⟨hb, fun r k hr hk => h1 r k (by omega) hk⟩
  | succ fuel ih =>
    intro row b hf hb h1 h2
    unfold compactLoop
    by_cases hlt' : (row : Int) < height
    · simp only [if_pos hlt']
      have hrc := hrow row hlt'
      have hrd : row * d ≤ row * c := Nat.mul_le_mul_left row hdc
      have m1 : row * d % 18446744073709551616 = row * d := Nat.mod_eq_of_lt (by omega)
      have m2 : row * c % 18446744073709551616 = row * c := Nat.mod_eq_of_lt (by omega)
      rw [m1, m2]
      have hs : (row + 1) * d = row * d + d := by ring
      have key := ih (row + 1) (memmove b (row * d) (row * c) d) (by push_cast; omega)
        (by rw [length_memmove, hb]) ?_ ?_
      · exact ⟨key.1, fun r k hr hk => key.2 r k (by omega) hk⟩
      · intro r k hr hk
        by_cases hrr : r = row
        · subst hrr
          rw [getD_memmove_inside _ _ _ _ _ (by omega) (by omega) (by omega)]
          have : r * c + (r * d + k - r * d) = r * c + k := by omega
          rw [this]
          exact h2 _ (by omega)
        · have hr' : r < row := by omega
          have := Nat.mul_le_mul_right d (show r + 1 ≤ row by omega)
          have hs' : (r + 1) * d = r * d + d := by ring
          rw [getD_memmove_outside _ _ _ _ _ (by omega)]
          exact h1 r k hr' hk
      · intro i hi
        rw [getD_memmove_outside _ _ _ _ _ (by omega)]
        exact h2 i (by omega)
    · simp only [if_neg hlt']
      exact ⟨hb, fun r k hr hk => h1 r k (by omega) hk⟩

/-! ## Lemmas on 32-bit indices -/


theorem toASSize_t_natCast (n : Nat) (h : n < 18446744073709551616) :
    toASSize_t (n : Int) = n := by
  unfold toASSize_t
  omega


theorem addInt32_natCast (a b : Nat) (h : a + b < 2147483648) :
    addInt32 (a : Int) (b : Int) = ((a + b : Nat) : Int) := by
  unfold addInt32 wrapInt32
  omega


theorem mulInt32_natCast (a b : Nat) (h : a * b < 2147483648) :
    mulInt32 (a : Int) (b : Int) = ((a * b : Nat) : Int) := by
  unfold mulInt32
  rw [← Nat.cast_mul]
  generalize a * b = p at h
  unfold wrapInt32
  omega


theorem storeByte_natCast (b : List Nat) (i v : Nat) : storeByte b (i : Int) v = b.set i v := by
  unfold storeByte
  rw [if_pos (Int.ofNat_nonneg i), Int.toNat_ofNat]


theorem loadByte_natCast (b : List Nat) (i : Nat) : loadByte b (i : Int) = b.getD i 0 := by
  unfold loadByte
  rw [if_pos (Int.ofNat_nonneg i), Int.toNat_ofNat]


/-- The loop of `alphaInit`, started at a multiple of 4 (at most 2^31) on a buffer whose size
is a multiple of 4, zeroes the bytes at the offsets 3 modulo 4 from `offset` on that lie
below 2^31, keeps the others, and stops when the 32-bit counter has wrapped. -/
theorem alphaInit_spec (n : Nat) (h4 : 4 ∣ n) (hn : n ≤ 18446744071562067968) :
    ∀ (fuel offset : Nat) (b : List Nat),
      (n ≤ offset + 4 * fuel ∨ 2147483648 ≤ offset + 4 * fuel) → 4 ∣ offset →
      offset ≤ 2147483648 → b.length = n →
      (alphaInit n fuel (wrapInt32 (offset : Int)) b).length = n
      ∧ ∀ i, (alphaInit n fuel (wrapInt32 (offset : Int)) b).getD i 0
          = if offset ≤ i ∧ i % 4 = 3 ∧ i < n ∧ i < 2147483648 then 0 else b.getD i 0 := by
  intro fuel
  induction fuel with
  | zero =>
    intro offset b hf _ _ hb
    refine ⟨hb, fun i => ?_⟩
    have : ¬ (offset ≤ i ∧ i % 4 = 3 ∧ i < n ∧ i < 2147483648) := by omega
    rw [if_neg this]
    rfl
  | succ fuel ih =>
    intro offset b hf ho hle hb
    unfold alphaInit
    by_cases hlt : offset < n ∧ offset < 2147483648
    · have hw : wrapInt32 (offset : Int) = (offset : Int) := by unfold wrapInt32; omega
      have hc : toASSize_t (wrapInt32 (offset : Int)) < n := by
        rw [hw, toASSize_t_natCast _ (by omega)]; exact hlt.1
      have h3 : addInt32 (wrapInt32 (offset : Int)) 3 = ((offset + 3 : Nat) : Int) := by
        rw [hw]; exact addInt32_natCast offset 3 (by omega)
      have h4a : addInt32 (wrapInt32 (offset : Int)) 4 = wrapInt32 ((offset + 4 : Nat) : Int) := by
        rw [hw]; unfold addInt32; push_cast; rfl
      rw [if_pos hc, h3, h4a, storeByte_natCast]
      have hb1 : (b.set (offset + 3) 0).length = n := by simp [hb]
      obtain ⟨hl, hg⟩ := ih (offset + 4) (b.set (offset + 3) 0) (by omega) (by omega)
        (by omega) hb1
      refine ⟨hl, fun i => ?_⟩
      rw [hg i, getD_set_zero]
      by_cases hi : offset + 3 = i
      · have c1 : offset ≤ i ∧ i % 4 = 3 ∧ i < n ∧ i < 2147483648 := by omega
        have c2 : offset + 3 = i ∧ offset + 3 < b.length := by omega
        rw [if_pos c1, if_neg (by omega), if_pos c2]
      · by_cases c1 : offset ≤ i ∧ i % 4 = 3 ∧ i < n ∧ i < 2147483648
        · have c3 : offset + 4 ≤ i ∧ i % 4 = 3 ∧ i < n ∧ i < 2147483648 := by omega
          rw [if_pos c1, if_pos c3]
        · have c3 : ¬ (offset + 4 ≤ i ∧ i % 4 = 3 ∧ i < n ∧ i < 2147483648) := by omega
          rw [if_neg c1, if_neg c3, if_neg (fun hc => hi hc.1)]
    · have hc : ¬ toASSize_t (wrapInt32 (offset : Int)) < n := by
        by_cases h31 : offset < 2147483648
        · have hw : wrapInt32 (offset : Int) = (offset : Int) := by unfold wrapInt32; omega
          rw [hw, toASSize_t_natCast _ (by omega)]
          omega
        · have ho2 : offset = 2147483648 := by omega
          subst ho2
          have : toASSize_t (wrapInt32 ((2147483648 : Nat) : Int)) = 18446744071562067968 := by
            decide
          rw [this]
          omega
      rw [if_neg hc]
      refine ⟨hb, fun i => ?_⟩
      have : ¬ (offset ≤ i ∧ i % 4 = 3 ∧ i < n ∧ i < 2147483648) := by omega
      rw [if_neg this]


/-- The loop of `splitLoop`, for at most 2^31 / 3 pixels: the color bytes and the alpha
byte of every pixel are stored at their places, and each is the byte loaded at the index
that the 32-bit product `Index * 4` yields. -/
theorem splitLoop_spec (A : Nat) (buf : List Nat) (hA : 3 * A ≤ 2147483648) :
    ∀ (fuel idx : Nat) (C Al : List Nat), A ≤ idx + fuel → idx ≤ A → 3 * A ≤ C.length →
      A ≤ Al.length →
      (∀ j, j < idx →
        (∀ k : Nat, k < 3 →
          C.getD (j * 3 + k) 0 = loadByte buf (addInt32 (mulInt32 (j : Int) 4) (k : Int)))
        ∧ Al.getD j 0 = loadByte buf (addInt32 (mulInt32 (j : Int) 4) 3)) →
      (splitLoop A buf fuel (idx : Int) (C, Al)).1.length = C.length
      ∧ (splitLoop A buf fuel (idx : Int) (C, Al)).2.length = Al.length
      ∧ ∀ j, j < A →
        (∀ k : Nat, k < 3 →
          (splitLoop A buf fuel (idx : Int) (C, Al)).1.getD (j * 3 + k) 0
            = loadByte buf (addInt32 (mulInt32 (j : Int) 4) (k : Int)))
        ∧ (splitLoop A buf fuel (idx : Int) (C, Al)).2.getD j 0
            = loadByte buf (addInt32 (mulInt32 (j : Int) 4) 3) := by
  intro fuel
  induction fuel with
  | zero =>
    intro idx C Al hf _ _ _ hinv
    exact ⟨rfl, rfl, fun j hj => hinv j (by omega)⟩
  | succ fuel ih =>
    intro idx C Al hf hle hC hA2 hinv
    unfold splitLoop
    by_cases hlt : idx < A
    · have hc : toASSize_t (idx : Int) < A := by
        rw [toASSize_t_natCast _ (by omega)]; exact hlt
      have hm3 : mulInt32 (idx : Int) 3 = ((idx * 3 : Nat) : Int) :=
        mulInt32_natCast idx 3 (by omega)
      have a0 : addInt32 (mulInt32 (idx : Int) 3) 0 = ((idx * 3 + 0 : Nat) : Int) := by
        rw [hm3]; exact addInt32_natCast (idx * 3) 0 (by omega)
      have a1 : addInt32 (mulInt32 (idx : Int) 3) 1 = ((idx * 3 + 1 : Nat) : Int) := by
        rw [hm3]; exact addInt32_natCast (idx * 3) 1 (by omega)
      have a2 : addInt32 (mulInt32 (idx : Int) 3) 2 = ((idx * 3 + 2 : Nat) : Int) := by
        rw [hm3]; exact addInt32_natCast (idx * 3) 2 (by omega)
      have an : addInt32 (idx : Int) 1 = ((idx + 1 : Nat) : Int) :=
        addInt32_natCast idx 1 (by omega)
      rw [if_pos hc, an]
      unfold splitBody
      simp only [a0, a1, a2, storeByte_natCast]
      clear hc hm3 a0 a1 a2 an
      have key := ih (idx + 1)
        (((C.set (idx * 3 + 0) (loadByte buf (addInt32 (mulInt32 (idx : Int) 4) 0))).set
            (idx * 3 + 1) (loadByte buf (addInt32 (mulInt32 (idx : Int) 4) 1))).set
            (idx * 3 + 2) (loadByte buf (addInt32 (mulInt32 (idx : Int) 4) 2)))
        (Al.set idx (loadByte buf (addInt32 (mulInt32 (idx : Int) 4) 3))) (by omega) (by omega)
        (by simp only [List.length_set]; exact hC) (by simp only [List.length_set]; exact hA2) ?_
      · simpa only [List.length_set] using key
      · intro j hj
        constructor
        · intro k hk
          simp only [getD_set_zero, List.length_set]
          by_cases hji : j = idx
          · subst hji
            interval_cases k
            · rw [if_neg (by omega), if_neg (by omega), if_pos ⟨rfl, by omega⟩]
              rfl
            · rw [if_neg (by omega), if_pos ⟨rfl, by omega⟩]
              rfl
            · rw [if_pos ⟨rfl, by omega⟩]
              rfl
          · rw [if_neg (by omega), if_neg (by omega), if_neg (by omega)]
            exact (hinv j (by omega)).1 k hk
        · rw [getD_set_zero]
          by_cases hji : j = idx
          · subst hji
            rw [if_pos ⟨rfl, by omega⟩]
          · rw [if_neg (fun hc => hji hc.1.symm)]
            exact (hinv j (by omega)).2
    · have hc : ¬ toASSize_t (idx : Int) < A := by
        rw [toASSize_t_natCast _ (by omega)]; exact hlt
      rw [if_neg hc]
      exact ⟨rfl, rfl, fun j hj => hinv j (by omega)⟩


/-- The loop of `splitLoop` runs the body of `splitBody` for the indices of
`splitLoopSteps`, in order. -/
theorem splitLoop_eq_foldl (A : Nat) (buf : List Nat) :
    ∀ (fuel : Nat) (idx : Int) (out : List Nat × List Nat),
      splitLoop A buf fuel idx out
        = (splitLoopSteps A fuel idx).foldl (splitBody buf) out := by
  intro fuel
  induction fuel with
  | zero => intro idx out; rfl
  | succ fuel ih =>
    intro idx out
    unfold splitLoop splitLoopSteps
    split_ifs
    · rw [List.foldl_cons]
      exact ih _ _
    · rfl



theorem getElem?_eq_of_getD (l1 l2 : List Nat) (i j : Nat) (h1 : i < l1.length)
    (h2 : j < l2.length) (h : l1.getD i 0 = l2.getD j 0) : l1[i]? = l2[j]? := by
  rw [getElem?_eq_some_getD l1 i h1, getElem?_eq_some_getD l2 j h2, h]

theorem GetPDEImage_fst (rp : RenderPage) (imageRect : ASFixedRect) :
    (rp.GetPDEImage imageRect).1 = rp.compact := by
  unfold RenderPage.GetPDEImage
  simp only
  split_ifs <;> rfl

/-- The constructor, once the geometry is accepted: it fails only if the allocation does,
and otherwise returns what the drawing call leaves in the initialised buffer. -/
theorem new_eq (lib : Library) (rotation : PDRotate) (r : ASFixedRect)
    (parms : RenderPageParams) (attrs : PDEImageAttrs)
    (h : RenderPage.imageAttrs rotation r parms = Except.ok attrs) :
    RenderPage.new lib rotation r parms
      = if lib.ASmalloc
            (lib.PDPageDrawContentsToMemoryWithParams
              (RenderPage.drawParams rotation r parms)).1 = false then
          Except.error ASError.genErrNoMemory
        else
          Except.ok
            { attrs := attrs
              csAtom := parms.ColorSpaceName
              nComps := parms.NumComps
              bufferSize :=
                (lib.PDPageDrawContentsToMemoryWithParams
                  (RenderPage.drawParams rotation r parms)).1
              bpc := parms.BitsPerComponent
              buffer :=
                (lib.PDPageDrawContentsToMemoryWithParams
                  { RenderPage.drawParams rotation r parms with
                    bufferSize :=
                      (lib.PDPageDrawContentsToMemoryWithParams
                        (RenderPage.drawParams rotation r parms)).1
                    buffer :=
                      some (RenderPage.initialBuffer parms.ColorSpaceName
                        (lib.PDPageDrawContentsToMemoryWithParams
                          (RenderPage.drawParams rotation r parms)).1) }).2
              padded := decide (parms.NumComps % 4 ≠ 0) } := by
  unfold RenderPage.new RenderPage.initialBuffer
  simp only [h]

/-! ## Row strides and row compaction -/

/-- Claim C11 at its failing input: `setBitsPerComponents` accepts 1 bit for DeviceGray; for
a width of 3 the row has 3 bits, which is not a multiple of 8, and the desired row stride is
0 bytes, so that compaction leaves a buffer of size 0 and an image without data. -/
theorem C11_desiredWidth_drops_bits :
    ((RenderPageParams.new.SetColorSpace
        (ASAtomFromString "DeviceGray")).2.setBitsPerComponents 1).BitsPerComponent = 1
    ∧ ¬ ((8 : Int) ∣ 3 * 1 * 1)
    ∧ desiredWidth 3 1 1 = 0
    ∧ createdWidth 3 1 1 = 4
    ∧ bilevelPage.compact.bufferSize = 0
    ∧ (bilevelPage.GetPDEImage letterRect).2.image.data = [] := by
  decide

/-- Claim C12: for a padded buffer that holds `height` rows of `createdWidth` bytes, with
`desiredWidth < createdWidth`, after the compaction of `GetPDEImage` the byte at row `r` and
column `k < desiredWidth` of the compacted layout is the original byte at offset
`r * createdWidth + k`, and the buffer size becomes `desiredWidth * height`. -/
theorem C12_row_compaction (rp : RenderPage) (hp : rp.padded = true)
    (hdc : desiredWidth rp.attrs.width rp.bpc rp.nComps
      < createdWidth rp.attrs.width rp.bpc rp.nComps)
    (hh : 0 ≤ rp.attrs.height)
    (hlen : createdWidth rp.attrs.width rp.bpc rp.nComps * rp.attrs.height.toNat
      ≤ rp.buffer.length)
    (hlt : rp.buffer.length < 18446744073709551616) :
    rp.compact.bufferSize
      = desiredWidth rp.attrs.width rp.bpc rp.nComps * rp.attrs.height.toNat
    ∧ ∀ r k : Nat, r < rp.attrs.height.toNat →
        k < desiredWidth rp.attrs.width rp.bpc rp.nComps →
        rp.compact.buffer[r * desiredWidth rp.attrs.width rp.bpc rp.nComps + k]?
          = rp.buffer[r * createdWidth rp.attrs.width rp.bpc rp.nComps + k]? := by
  generalize hd : desiredWidth rp.attrs.width rp.bpc rp.nComps = d at hdc ⊢
  generalize hc : createdWidth rp.attrs.width rp.bpc rp.nComps = c at hdc hlen ⊢
  obtain ⟨H, hH⟩ := Int.eq_ofNat_of_zero_le hh
  have hHn : rp.attrs.height.toNat = H := by rw [hH]; rfl
  rw [hHn] at hlen ⊢
  have hne : c ≠ d := by omega
  have hcomp : rp.compact
      = { rp with
          buffer := compactLoop d c rp.attrs.height H 1 rp.buffer
          bufferSize := d * toASSize_t rp.attrs.height % 18446744073709551616
          padded := false } := by
    unfold RenderPage.compact
    simp only [hp, hd, hc, hHn, if_true, ne_eq, hne, not_false_eq_true]
  have hrows : ∀ r : Nat, r < H → r * c + c ≤ rp.buffer.length := by
    intro r hr
    have h1 := Nat.mul_le_mul_right c (show r + 1 ≤ H by omega)
    have h2 : (r + 1) * c = r * c + c := by ring
    have h3 : H * c = c * H := Nat.mul_comm _ _
    omega
  have hdH : d * H ≤ c * H := Nat.mul_le_mul_right H (by omega)
  have hHlt : H < 18446744073709551616 := by
    have h1 : 1 * H ≤ c * H := Nat.mul_le_mul_right H (by omega)
    omega
  rw [hcomp]
  constructor
  · show d * toASSize_t rp.attrs.height % 18446744073709551616 = d * H
    have ht : toASSize_t rp.attrs.height = H := by
      unfold toASSize_t
      rw [hH]
      omega
    rw [ht]
    exact Nat.mod_eq_of_lt (by omega)
  · intro r k hr hk
    show (compactLoop d c rp.attrs.height H 1 rp.buffer)[r * d + k]? = rp.buffer[r * c + k]?
    have spec := compactLoop_spec rp.buffer d c rp.attrs.height (by omega)
      (fun r hr => hrows r (by omega)) hlt H 1 rp.buffer (by omega) rfl
      (fun r k hr hk => by
        have : r = 0 := by omega
        subst this
        simp)
      (fun i _ => rfl)
    have hrc := hrows r hr
    have hrd : r * d ≤ r * c := Nat.mul_le_mul_left r (by omega)
    exact getElem?_eq_of_getD _ _ _ _ (by rw [spec.1]; omega) (by omega)
      (spec.2 r k (Or.inr (by omega)) hk)

/-- Witness of C12: two rows of 3 gray bytes padded to 4. -/
theorem C12_row_compaction_witness :
    grayPage.compact.bufferSize
      = desiredWidth grayPage.attrs.width grayPage.bpc grayPage.nComps
          * grayPage.attrs.height.toNat
    ∧ ∀ r k : Nat, r < grayPage.attrs.height.toNat →
        k < desiredWidth grayPage.attrs.width grayPage.bpc grayPage.nComps →
        grayPage.compact.buffer[r * desiredWidth grayPage.attrs.width grayPage.bpc
            grayPage.nComps + k]?
          = grayPage.buffer[r * createdWidth grayPage.attrs.width grayPage.bpc
              grayPage.nComps + k]? :=
  C12_row_compaction grayPage rfl (by decide) (by decide) (by decide) (by decide)

/-- Claim C13: when the created row stride equals the desired one, the compaction of
`GetPDEImage` leaves the buffer and the buffer size as they are. -/
theorem C13_compaction_noop (rp : RenderPage) (imageRect : ASFixedRect)
    (h : createdWidth rp.attrs.width rp.bpc rp.nComps
      = desiredWidth rp.attrs.width rp.bpc rp.nComps) :
    rp.compact.buffer = rp.buffer
    ∧ rp.compact.bufferSize = rp.bufferSize
    ∧ (rp.GetPDEImage imageRect).1.buffer = rp.buffer
    ∧ (rp.GetPDEImage imageRect).1.bufferSize = rp.bufferSize := by
  have h1 : rp.compact.buffer = rp.buffer ∧ rp.compact.bufferSize = rp.bufferSize := by
    unfold RenderPage.compact
    by_cases hp : rp.padded = true
    · simp [hp, h]
    · simp [hp]
  rw [GetPDEImage_fst]
  exact ⟨h1.1, h1.2, h1.1, h1.2⟩

/-- Witness of C13: 612 pixels of DeviceRGB at 8 bits, where both strides are 1836. -/
theorem C13_compaction_noop_witness :
    createdWidth 612 8 3 = 1836
    ∧ desiredWidth 612 8 3 = 1836
    ∧ rgbRowPage.compact.buffer = rgbRowPage.buffer
    ∧ rgbRowPage.compact.bufferSize = rgbRowPage.bufferSize :=
  ⟨by decide, by decide,
   (C13_compaction_noop rgbRowPage letterRect (by decide)).1,
   (C13_compaction_noop rgbRowPage letterRect (by decide)).2.1⟩

/-- Claim C14: the compaction of `GetPDEImage` is idempotent: a second run leaves the object,
its buffer and its buffer size as the first run left them (the first run clears the padded
flag), for every object. -/
theorem C14_compaction_idempotent (rp : RenderPage) (r1 r2 : ASFixedRect) :
    rp.compact.compact = rp.compact
    ∧ rp.compact.padded = false
    ∧ ((rp.GetPDEImage r1).1.GetPDEImage r2).1.buffer = (rp.GetPDEImage r1).1.buffer
    ∧ ((rp.GetPDEImage r1).1.GetPDEImage r2).1.bufferSize
        = (rp.GetPDEImage r1).1.bufferSize := by
  have hp : rp.compact.padded = false := by
    unfold RenderPage.compact
    by_cases hp : rp.padded = true
    · by_cases hne : createdWidth rp.attrs.width rp.bpc rp.nComps
          = desiredWidth rp.attrs.width rp.bpc rp.nComps
      · simp [hp, hne]
      · simp [hp, hne]
    · simp [hp]
  have h1 : rp.compact.compact = rp.compact := by
    generalize rp.compact = q at hp
    unfold RenderPage.compact
    simp [hp]
  refine ⟨h1, hp, ?_, ?_⟩ <;> rw [GetPDEImage_fst, GetPDEImage_fst, h1]

/-! ## The alpha channel -/

/-- For a DeviceRGBA object that needs no compaction, the image data of `GetPDEImage` is the
color data of `splitAlpha` and the data of the soft mask is its alpha data. -/
theorem GetPDEImage_rgba (rp : RenderPage) (imageRect : ASFixedRect)
    (hcs : rp.csAtom = ASAtomFromString "DeviceRGBA") (hp : rp.padded = false) :
    (rp.GetPDEImage imageRect).2.image.data = rp.splitAlpha.1
    ∧ (rp.GetPDEImage imageRect).2.sMask
        = some { attrs := rp.attrs, matrix := imageMatrix imageRect
                 colorSpace := ASAtomFromString "DeviceGray", data := rp.splitAlpha.2 } := by
  have hc : rp.compact = rp := by
    unfold RenderPage.compact
    simp [hp]
  unfold RenderPage.GetPDEImage
  simp only [hc, hcs, if_true]
  exact ⟨trivial, trivial⟩

/-- The separation of `splitAlpha` for at most 2^31 / 3 pixels: the color data has 3 bytes
and the alpha data 1 byte for each pixel, and the bytes of pixel `i` are those loaded at the
indices that the 32-bit products `i * 4` yield. -/
theorem splitAlpha_spec (rp : RenderPage) (hw : 0 ≤ rp.attrs.width) (hh : 0 ≤ rp.attrs.height)
    (hov : rp.attrs.width * rp.attrs.height * 3 < 2147483648)
    (hsize : rp.bufferSize = 4 * (rp.attrs.width * rp.attrs.height).toNat) :
    rp.splitAlpha.1.length = 3 * (rp.attrs.width * rp.attrs.height).toNat
    ∧ rp.splitAlpha.2.length = (rp.attrs.width * rp.attrs.height).toNat
    ∧ ∀ i : Nat, i < (rp.attrs.width * rp.attrs.height).toNat →
        (∀ k : Nat, k < 3 →
          rp.splitAlpha.1.getD (3 * i + k) 0
            = loadByte rp.buffer (addInt32 (mulInt32 (i : Int) 4) (k : Int)))
        ∧ rp.splitAlpha.2.getD i 0 = loadByte rp.buffer (addInt32 (mulInt32 (i : Int) 4) 3) := by
  have hwh : 0 ≤ rp.attrs.width * rp.attrs.height := mul_nonneg hw hh
  obtain ⟨N, hN⟩ := Int.eq_ofNat_of_zero_le hwh
  have hNn : (rp.attrs.width * rp.attrs.height).toNat = N := by rw [hN]; rfl
  rw [hNn] at hsize ⊢
  have hov' : (N : Int) * 3 < 2147483648 := by rw [← hN]; exact hov
  have hN3 : 3 * N < 2147483648 := by
    clear hov hN hNn hsize hwh hh hw
    omega
  have t3 : toASSize_t ((N : Int) * 3) = 3 * N := by
    have := toASSize_t_natCast (3 * N) (by omega)
    rw [← this]
    congr 1
    push_cast
    ring
  have t1 : toASSize_t (N : Int) = N := toASSize_t_natCast N (by omega)
  have e3 : toASSize_t (mulInt32 (mulInt32 rp.attrs.width rp.attrs.height) 3) = 3 * N := by
    rw [mulInt32_mulInt32 _ _ _ (by rw [hN]; omega) hov, hN]
    exact t3
  have e1 : toASSize_t (mulInt32 rp.attrs.width rp.attrs.height) = N := by
    unfold mulInt32
    rw [hN, wrapInt32_eq_self _ (by omega) (by omega)]
    exact t1
  have hA : rp.bufferSize / 4 = N := by omega
  have hC : rp.bufferSize - N = 3 * N := by omega
  have spec := splitLoop_spec N rp.buffer (by omega) N 0 (List.replicate (3 * N) 0)
    (List.replicate N 0) (by omega) (by omega) (by simp) (by simp)
    (fun j hj => absurd hj (Nat.not_lt_zero j))
  simp only [List.length_replicate, Nat.cast_zero] at spec
  obtain ⟨s1, s2, s3⟩ := spec
  have hsplit : rp.splitAlpha
      = ((splitLoop N rp.buffer N 0 (List.replicate (3 * N) 0, List.replicate N 0)).1.take
            (3 * N),
         (splitLoop N rp.buffer N 0 (List.replicate (3 * N) 0, List.replicate N 0)).2.take
            N) := by
    unfold RenderPage.splitAlpha
    simp only [hA, hC, e1, e3]
  rw [hsplit]
  refine ⟨?_, ?_, ?_⟩
  · simp [s1]
  · simp [s2]
  · intro i hi
    constructor
    · intro k hk
      have h := (s3 i hi).1 k hk
      rw [Nat.mul_comm i 3] at h
      rw [← h, List.getD_eq_getElem?_getD, List.getD_eq_getElem?_getD,
        List.getElem?_take_of_lt (by omega)]
    · have h := (s3 i hi).2
      rw [← h, List.getD_eq_getElem?_getD, List.getD_eq_getElem?_getD,
        List.getElem?_take_of_lt hi]

/-- For a DeviceRGBA object whose buffer of `4 * width * height` bytes is smaller than 2^31
bytes, `GetPDEImage` yields color data of `3 * width * height` bytes and alpha data of
`width * height` bytes with, for every pixel `i`, color bytes `3 i + k` (k = 0, 1, 2) equal
to the input bytes `4 i + k` and alpha byte `i` equal to the input byte `4 i + 3`. -/
theorem rgba_split_small (rp : RenderPage) (imageRect : ASFixedRect)
    (hcs : rp.csAtom = ASAtomFromString "DeviceRGBA") (hp : rp.padded = false)
    (hw : 0 ≤ rp.attrs.width) (hh : 0 ≤ rp.attrs.height)
    (hsmall : rp.bufferSize < 2147483648)
    (hsize : rp.bufferSize = 4 * (rp.attrs.width * rp.attrs.height).toNat)
    (hlen : rp.buffer.length = rp.bufferSize) :
    ∃ mask : PDEImageData,
      (rp.GetPDEImage imageRect).2.sMask = some mask
      ∧ (rp.GetPDEImage imageRect).2.image.data.length
          = 3 * (rp.attrs.width * rp.attrs.height).toNat
      ∧ mask.data.length = (rp.attrs.width * rp.attrs.height).toNat
      ∧ ∀ i : Nat, i < (rp.attrs.width * rp.attrs.height).toNat →
          (∀ k : Nat, k < 3 →
            (rp.GetPDEImage imageRect).2.image.data[3 * i + k]? = rp.buffer[4 * i + k]?)
          ∧ mask.data[i]? = rp.buffer[4 * i + 3]? := by
  have hov : rp.attrs.width * rp.attrs.height * 3 < 2147483648 := by
    have hwh : 0 ≤ rp.attrs.width * rp.attrs.height := mul_nonneg hw hh
    generalize rp.attrs.width * rp.attrs.height = p at hwh hsize
    omega
  obtain ⟨g1, g2⟩ := GetPDEImage_rgba rp imageRect hcs hp
  obtain ⟨s1, s2, s3⟩ := splitAlpha_spec rp hw hh hov hsize
  generalize (rp.attrs.width * rp.attrs.height).toNat = N at hsize s1 s2 s3 ⊢
  refine ⟨_, g2, ?_, s2, ?_⟩
  · rw [g1]; exact s1
  · intro i hi
    have r4 : ∀ k : Nat, k < 4 →
        loadByte rp.buffer (addInt32 (mulInt32 (i : Int) 4) (k : Int))
          = rp.buffer.getD (4 * i + k) 0 := by
      intro k hk
      have hm : mulInt32 (i : Int) 4 = ((i * 4 : Nat) : Int) :=
        mulInt32_natCast i 4 (by omega)
      rw [hm, addInt32_natCast (i * 4) k (by omega), loadByte_natCast, Nat.mul_comm i 4]
    constructor
    · intro k hk
      rw [g1]
      exact getElem?_eq_of_getD _ _ _ _ (by omega) (by omega)
        (((s3 i hi).1 k hk).trans (r4 k (by omega)))
    · exact getElem?_eq_of_getD _ _ _ _ (by show i < rp.splitAlpha.2.length; omega) (by omega)
        ((s3 i hi).2.trans (r4 3 (by omega)))

/-- Claim C15, where the code departs from it: for a DeviceRGBA object of 24000 by 24000
pixels, whose buffer holds 4 * 24000 * 24000 bytes, the color byte 3 i of pixel
i = 536870912 is not the input byte 4 i: the index `Index * 4` is formed in 32 bits and
comes out as -2147483648, so the byte is loaded from before the start of the buffer. -/
theorem C15_large_image_reads_before_buffer :
    bigRgbaPage.csAtom = ASAtomFromString "DeviceRGBA"
    ∧ bigRgbaPage.bufferSize
        = 4 * (bigRgbaPage.attrs.width * bigRgbaPage.attrs.height).toNat
    ∧ bigRgbaPage.buffer.length = bigRgbaPage.bufferSize
    ∧ 536870912 < (bigRgbaPage.attrs.width * bigRgbaPage.attrs.height).toNat
    ∧ (4 * 536870912 + 0 : Int) = 2147483648
    ∧ addInt32 (mulInt32 536870912 4) 0 = -2147483648
    ∧ (bigRgbaPage.GetPDEImage letterRect).2.image.data.length
        = 3 * (bigRgbaPage.attrs.width * bigRgbaPage.attrs.height).toNat
    ∧ (bigRgbaPage.GetPDEImage letterRect).2.image.data[3 * 536870912 + 0]?
        = some (loadByte bigRgbaPage.buffer (-2147483648)) := by
  have hw : (0 : Int) ≤ bigRgbaPage.attrs.width := by decide
  have hh : (0 : Int) ≤ bigRgbaPage.attrs.height := by decide
  have hov : bigRgbaPage.attrs.width * bigRgbaPage.attrs.height * 3 < 2147483648 := by decide
  have hsize : bigRgbaPage.bufferSize
      = 4 * (bigRgbaPage.attrs.width * bigRgbaPage.attrs.height).toNat := by decide
  have hN : (bigRgbaPage.attrs.width * bigRgbaPage.attrs.height).toNat = 576000000 := by decide
  have hidx : addInt32 (mulInt32 536870912 4) 0 = -2147483648 := by decide
  obtain ⟨g1, -⟩ := GetPDEImage_rgba bigRgbaPage letterRect rfl rfl
  obtain ⟨s1, -, s3⟩ := splitAlpha_spec bigRgbaPage hw hh hov hsize
  have h := (s3 536870912 (by rw [hN]; decide)).1 0 (by decide)
  refine ⟨rfl, hsize, List.length_replicate _ _, by rw [hN]; decide, by decide, hidx, ?_, ?_⟩
  · rw [g1]; exact s1
  · rw [g1, getElem?_eq_some_getD _ _ (by rw [s1, hN]; decide), h]
    exact congrArg (fun i => some (loadByte bigRgbaPage.buffer i)) hidx

/-- The buffer handed to the drawing call for a DeviceRGBA page, for a size that is a
multiple of 4: the bytes at the indices 3 modulo 4 below 2^31 are 0, every other byte is the
fill value 0x7F. -/
theorem initialBuffer_rgba (n : Nat) (h4 : 4 ∣ n) (hn : n ≤ 18446744071562067968) :
    (RenderPage.initialBuffer (ASAtomFromString "DeviceRGBA") n).length = n
    ∧ ∀ i : Nat, i < n →
        (RenderPage.initialBuffer (ASAtomFromString "DeviceRGBA") n)[i]?
          = some (if i % 4 = 3 ∧ i < 2147483648 then 0 else 127) := by
  obtain ⟨hl, hg⟩ := alphaInit_spec n h4 hn n 0 (List.replicate n 127) (by omega) (by simp)
    (by omega) (by simp)
  have h0 : wrapInt32 ((0 : Nat) : Int) = 0 := rfl
  rw [h0] at hl hg
  have hb : RenderPage.initialBuffer (ASAtomFromString "DeviceRGBA") n
      = alphaInit n n 0 (List.replicate n 127) := by
    unfold RenderPage.initialBuffer
    simp only [if_true]
  rw [hb]
  refine ⟨hl, fun i hi => ?_⟩
  rw [getElem?_eq_some_getD _ i (by omega), hg i]
  by_cases h3 : i % 4 = 3 ∧ i < 2147483648
  · rw [if_pos ⟨by omega, h3.1, hi, h3.2⟩, if_pos h3]
  · have : ¬ (0 ≤ i ∧ i % 4 = 3 ∧ i < n ∧ i < 2147483648) := fun hc => h3 ⟨hc.2.1, hc.2.2.2⟩
    rw [if_neg this, if_neg h3, List.getD_eq_getElem?_getD, List.getElem?_replicate_of_lt hi]
    rfl

/-- For a buffer of at most 2^31 bytes whose size is a multiple of 4, the buffer of a
DeviceRGBA page has, before the drawing call, 0 at the indices 3 modulo 4 and the fill value
0x7F elsewhere; for every other color model the buffer is the fill value throughout. -/
theorem alpha_preinit_small (csAtom : ASAtom) (n : Nat) (h4 : 4 ∣ n) (hn : n ≤ 2147483648) :
    (RenderPage.initialBuffer csAtom n).length = n
    ∧ (∀ i : Nat, i < n →
        (RenderPage.initialBuffer csAtom n)[i]?
          = some (if csAtom = ASAtomFromString "DeviceRGBA" ∧ i % 4 = 3 then 0 else 127))
    ∧ (csAtom ≠ ASAtomFromString "DeviceRGBA" →
        RenderPage.initialBuffer csAtom n = List.replicate n 127) := by
  have hne : csAtom ≠ ASAtomFromString "DeviceRGBA" →
      RenderPage.initialBuffer csAtom n = List.replicate n 127 := by
    intro hcs
    unfold RenderPage.initialBuffer
    simp only
    rw [if_neg hcs]
  by_cases hcs : csAtom = ASAtomFromString "DeviceRGBA"
  · subst hcs
    obtain ⟨hl, hg⟩ := initialBuffer_rgba n h4 (by omega)
    refine ⟨hl, fun i hi => ?_, hne⟩
    rw [hg i hi]
    by_cases h3 : i % 4 = 3
    · rw [if_pos ⟨h3, by omega⟩, if_pos ⟨rfl, h3⟩]
    · rw [if_neg (fun hc => h3 hc.1), if_neg (fun hc => h3 hc.2)]
  · refine ⟨by rw [hne hcs]; simp, fun i hi => ?_, hne⟩
    rw [hne hcs, if_neg (fun hc => hcs hc.1), List.getElem?_replicate_of_lt hi]

/-- Claim C16, where the code departs from it: for a DeviceRGBA buffer of
3600000000 = 4 * 30000 * 30000 bytes, the counter of the alpha loop is a 32-bit integer and
the loop ends when it has wrapped: the byte at index 2147483647 is the last one set to 0, and
the byte at index 2147483651, which is 3 modulo 4, keeps the fill value 0x7F. -/
theorem C16_alpha_loop_stops_at_wrap :
    4 ∣ 3600000000
    ∧ (RenderPage.initialBuffer (ASAtomFromString "DeviceRGBA") 3600000000).length
        = 3600000000
    ∧ (RenderPage.initialBuffer (ASAtomFromString "DeviceRGBA") 3600000000)[2147483647]?
        = some 0
    ∧ 2147483651 % 4 = 3
    ∧ (RenderPage.initialBuffer (ASAtomFromString "DeviceRGBA") 3600000000)[2147483651]?
        = some 127 := by
  obtain ⟨hl, hg⟩ := initialBuffer_rgba 3600000000 (by decide) (by decide)
  refine ⟨by decide, hl, ?_, by decide, ?_⟩
  · rw [hg 2147483647 (by decide)]
    rfl
  · rw [hg 2147483651 (by decide)]
    rfl

/-! ## The constructor: buffer size, checks and verbosity -/

/-- Counterexample to C17 as stated: for 3 gray pixels in each of 2 rows, with a drawing call
that pads rows to 4 bytes, the constructor leaves a buffer of 8 bytes, while the desired
row stride times the height is 6. -/
theorem C17_buffer_keeps_padding :
    RenderPage.new rowLibrary PDRotate.pdRotate0 smallRect grayParams = Except.ok rowGrayPage
    ∧ rowGrayPage.GetImageBufferSize = 8
    ∧ desiredWidth rowGrayPage.attrs.width rowGrayPage.bpc rowGrayPage.nComps
        * rowGrayPage.attrs.height.toNat = 6 := by
  decide!

/-- Claim C17, as the code has it: the buffer size read through `GetImageBufferSize` after
the constructor is the size the drawing call reported; when that is `height` rows of
`createdWidth` bytes, it is `createdWidth * height`, which equals `desiredWidth * height`
only if the two strides coincide or the height is 0. -/
theorem C17_buffer_size_from_engine (lib : Library) (rotation : PDRotate) (r : ASFixedRect)
    (parms : RenderPageParams) (rp : RenderPage)
    (h : RenderPage.new lib rotation r parms = Except.ok rp) :
    rp.GetImageBufferSize
      = (lib.PDPageDrawContentsToMemoryWithParams (RenderPage.drawParams rotation r parms)).1
    ∧ ((lib.PDPageDrawContentsToMemoryWithParams (RenderPage.drawParams rotation r parms)).1
          = createdWidth rp.attrs.width rp.bpc rp.nComps * rp.attrs.height.toNat →
        rp.GetImageBufferSize
          = createdWidth rp.attrs.width rp.bpc rp.nComps * rp.attrs.height.toNat
        ∧ (rp.GetImageBufferSize
              = desiredWidth rp.attrs.width rp.bpc rp.nComps * rp.attrs.height.toNat
            ↔ createdWidth rp.attrs.width rp.bpc rp.nComps
                = desiredWidth rp.attrs.width rp.bpc rp.nComps
              ∨ rp.attrs.height.toNat = 0)) := by
  have ha := new_attrs lib rotation r parms rp h
  have hs : rp.GetImageBufferSize
      = (lib.PDPageDrawContentsToMemoryWithParams
          (RenderPage.drawParams rotation r parms)).1 := by
    rw [new_eq lib rotation r parms rp.attrs ha] at h
    split_ifs at h
    injection h with h
    rw [← h]
    rfl
  refine ⟨hs, fun hc => ⟨hs.trans hc, ?_⟩⟩
  rw [hs, hc]
  exact mul_eq_mul_right_iff

/-- Witness of C17: 3 gray pixels in each of 2 rows padded to 4 bytes. -/
theorem C17_buffer_size_from_engine_witness :
    rowGrayPage.GetImageBufferSize
      = (rowLibrary.PDPageDrawContentsToMemoryWithParams
          (RenderPage.drawParams PDRotate.pdRotate0 smallRect grayParams)).1
    ∧ rowGrayPage.GetImageBufferSize
      = createdWidth rowGrayPage.attrs.width rowGrayPage.bpc rowGrayPage.nComps
          * rowGrayPage.attrs.height.toNat :=
  ⟨(C17_buffer_size_from_engine rowLibrary PDRotate.pdRotate0 smallRect grayParams rowGrayPage
      (by decide!)).1,
   ((C17_buffer_size_from_engine rowLibrary PDRotate.pdRotate0 smallRect grayParams rowGrayPage
      (by decide!)).2 (by decide!)).1⟩

/-- Counterexample to C18 as stated: a destination rectangle whose minimum corner is
(1/2, -1/2), far more than 1e-6 away from (0, 0), passes both assertions. -/
theorem C18_half_pixel_passes :
    RenderPage.imageAttrs PDRotate.pdRotate0 letterRect
        (RenderPageParams.new.setDestRect
          (some { left := 1 / 2, bottom := -1 / 2, right := 10, top := 10 }))
      = Except.ok { width := 10, height := 10, bitsPerComponent := 8 } := by
  decide!

/-- Claim C18, as the code has it: the destination-rectangle check of the constructor fails
exactly when the left or the bottom of the destination rectangle, converted to single
precision, has a nonzero integer part, that is when one of the converted values is at most
-1 or at least 1; it passes exactly when both converted values lie strictly between -1
and 1. -/
theorem C18_destination_check (rotation : PDRotate) (r : ASFixedRect)
    (parms : RenderPageParams) :
    (RenderPage.imageAttrs rotation r parms = Except.error ASError.assertionFailed
      ↔ ¬ (-1 < toASReal (RenderPage.doubleDestRect rotation r parms).left
          ∧ toASReal (RenderPage.doubleDestRect rotation r parms).left < 1
          ∧ -1 < toASReal (RenderPage.doubleDestRect rotation r parms).bottom
          ∧ toASReal (RenderPage.doubleDestRect rotation r parms).bottom < 1))
    ∧ ((∃ attrs, RenderPage.imageAttrs rotation r parms = Except.ok attrs)
      ↔ (-1 < toASReal (RenderPage.doubleDestRect rotation r parms).left
          ∧ toASReal (RenderPage.doubleDestRect rotation r parms).left < 1
          ∧ -1 < toASReal (RenderPage.doubleDestRect rotation r parms).bottom
          ∧ toASReal (RenderPage.doubleDestRect rotation r parms).bottom < 1)) := by
  have hl := truncASInt32_eq_zero_iff (toASReal (RenderPage.doubleDestRect rotation r parms).left)
  have hb := truncASInt32_eq_zero_iff (toASReal (RenderPage.doubleDestRect rotation r parms).bottom)
  unfold RenderPage.imageAttrs ASDoubleRectToASReal
  simp only
  by_cases h1 : truncASInt32 (toASReal (RenderPage.doubleDestRect rotation r parms).left) = 0
  · by_cases h2 : truncASInt32 (toASReal (RenderPage.doubleDestRect rotation r parms).bottom) = 0
    · have c := hl.1 h1
      have c' := hb.1 h2
      simp [h1, h2, c.1, c.2, c'.1, c'.2]
    · have c : ¬ (-1 < toASReal (RenderPage.doubleDestRect rotation r parms).bottom
          ∧ toASReal (RenderPage.doubleDestRect rotation r parms).bottom < 1) := fun hc => h2 (hb.2 hc)
      simp only [h1, h2, ne_eq, not_true_eq_false, not_false_eq_true, if_false, if_true]
      constructor
      · exact ⟨fun _ hc => c hc.2.2, fun _ => trivial⟩
      · constructor
        · rintro ⟨a, ha⟩
          cases ha
        · intro hc
          exact absurd hc.2.2 c
  · have c : ¬ (-1 < toASReal (RenderPage.doubleDestRect rotation r parms).left
        ∧ toASReal (RenderPage.doubleDestRect rotation r parms).left < 1) := fun hc => h1 (hl.2 hc)
    simp only [h1, ne_eq, not_false_eq_true, if_true]
    constructor
    · exact ⟨fun _ hc => c ⟨hc.1, hc.2.1⟩, fun _ => trivial⟩
    · constructor
      · rintro ⟨a, ha⟩
        cases ha
      · intro hc
        exact absurd ⟨hc.1, hc.2.1⟩ c

/-- The conversion to single precision counts in the check: a left of 1 - 2^-31 lies
strictly between -1 and 1, becomes 1 in single precision and fails the first assertion. -/
theorem narrowed_left_fails_check :
    RenderPage.imageAttrs PDRotate.pdRotate0 letterRect
        (RenderPageParams.new.setDestRect
          (some { left := 1 - 1 / 2147483648, bottom := 0, right := 10, top := 10 }))
      = Except.error ASError.assertionFailed := by
  decide!

/-- Counterexample to C19 as stated: with a size query that returns 0 and an allocator that
accepts 0 bytes, the construction succeeds, with an empty buffer. -/
theorem C19_zero_size_succeeds :
    RenderPage.new zeroLibrary PDRotate.pdRotate0 smallRect grayParams
      = Except.ok
          { attrs := { width := 3, height := 2, bitsPerComponent := 8 }
            csAtom := ASAtomFromString "DeviceGray"
            nComps := 1
            bufferSize := 0
            bpc := 8
            buffer := []
            padded := true } := by
  decide!

/-- Claim C19, as the code has it: when the size query returns 0 the constructor makes no
check of the size; it asks for 0 bytes and, if the allocation fails, raises the
out-of-memory error; otherwise it makes the drawing call with an empty buffer and returns
an object of buffer size 0. -/
theorem C19_zero_size (lib : Library) (rotation : PDRotate) (r : ASFixedRect)
    (parms : RenderPageParams) (attrs : PDEImageAttrs)
    (ha : RenderPage.imageAttrs rotation r parms = Except.ok attrs)
    (h0 : (lib.PDPageDrawContentsToMemoryWithParams
      (RenderPage.drawParams rotation r parms)).1 = 0) :
    RenderPage.new lib rotation r parms
      = if lib.ASmalloc 0 = false then Except.error ASError.genErrNoMemory
        else
          Except.ok
            { attrs := attrs
              csAtom := parms.ColorSpaceName
              nComps := parms.NumComps
              bufferSize := 0
              bpc := parms.BitsPerComponent
              buffer :=
                (lib.PDPageDrawContentsToMemoryWithParams
                  { RenderPage.drawParams rotation r parms with
                    bufferSize := 0, buffer := some [] }).2
              padded := decide (parms.NumComps % 4 ≠ 0) } := by
  have hi : RenderPage.initialBuffer parms.ColorSpaceName 0 = [] := by
    unfold RenderPage.initialBuffer
    simp only
    split_ifs <;> rfl
  rw [new_eq lib rotation r parms attrs ha, h0, hi]

/-- Witness of C19: the library of the counterexample, whose allocator accepts 0 bytes. -/
theorem C19_zero_size_witness :
    RenderPage.new zeroLibrary PDRotate.pdRotate0 smallRect grayParams
      = if zeroLibrary.ASmalloc 0 = false then Except.error ASError.genErrNoMemory
        else
          Except.ok
            { attrs := { width := 3, height := 2, bitsPerComponent := 8 }
              csAtom := grayParams.ColorSpaceName
              nComps := grayParams.NumComps
              bufferSize := 0
              bpc := grayParams.BitsPerComponent
              buffer :=
                (zeroLibrary.PDPageDrawContentsToMemoryWithParams
                  { RenderPage.drawParams PDRotate.pdRotate0 smallRect grayParams with
                    bufferSize := 0, buffer := some [] }).2
              padded := decide (grayParams.NumComps % 4 ≠ 0) } :=
  C19_zero_size zeroLibrary PDRotate.pdRotate0 smallRect grayParams
    { width := 3, height := 2, bitsPerComponent := 8 } (by decide!) (by decide)

/-- Claim C20: the verbose flag changes nothing but the two callbacks installed in the
record handed to the drawing call: the transform, the destination rectangle, the width and
height, the color model and the bits per component are the same, and, for a drawing call
whose results do not depend on the callbacks, so is the whole object built (buffer size,
buffer and padded flag, hence every later layout step); the cancel callback never signals
cancellation. -/
theorem C20_verbose_no_effect (rotation : PDRotate) (r : ASFixedRect)
    (parms : RenderPageParams) (b : Bool) :
    RenderPage.updateMatrix rotation r (parms.setVerbose b)
      = RenderPage.updateMatrix rotation r parms
    ∧ RenderPage.doubleDestRect rotation r (parms.setVerbose b)
      = RenderPage.doubleDestRect rotation r parms
    ∧ RenderPage.imageAttrs rotation r (parms.setVerbose b)
      = RenderPage.imageAttrs rotation r parms
    ∧ RenderPage.drawParams rotation r (parms.setVerbose b)
      = { RenderPage.drawParams rotation r parms with progressProc := b, cancelProc := b }
    ∧ (∀ lib : Library,
        (∀ (dp : PDPageDrawMParamsRec) (b1 b2 : Bool),
          lib.PDPageDrawContentsToMemoryWithParams
              { dp with progressProc := b1, cancelProc := b2 }
            = lib.PDPageDrawContentsToMemoryWithParams dp) →
        RenderPage.new lib rotation r (parms.setVerbose b)
          = RenderPage.new lib rotation r parms)
    ∧ renderpageCancelProc = false := by
  refine ⟨rfl, rfl, rfl, rfl, ?_, rfl⟩
  intro lib hlib
  have hd : RenderPage.drawParams rotation r (parms.setVerbose b)
      = { RenderPage.drawParams rotation r parms with progressProc := b, cancelProc := b } :=
    rfl
  have hi : RenderPage.imageAttrs rotation r (parms.setVerbose b)
      = RenderPage.imageAttrs rotation r parms := rfl
  cases hA : RenderPage.imageAttrs rotation r parms with
  | error e =>
    unfold RenderPage.new
    simp only [hi, hA]
  | ok attrs =>
    have e1 := hlib (RenderPage.drawParams rotation r parms) b b
    rw [new_eq lib rotation r _ attrs (hi.trans hA), new_eq lib rotation r parms attrs hA, hd,
      e1]
    have e2 := hlib
      { RenderPage.drawParams rotation r parms with
        bufferSize :=
          (lib.PDPageDrawContentsToMemoryWithParams (RenderPage.drawParams rotation r parms)).1
        buffer :=
          some (RenderPage.initialBuffer parms.ColorSpaceName
            (lib.PDPageDrawContentsToMemoryWithParams
              (RenderPage.drawParams rotation r parms)).1) } b b
    have e3 : (parms.setVerbose b).ColorSpaceName = parms.ColorSpaceName := rfl
    have e4 : (parms.setVerbose b).NumComps = parms.NumComps := rfl
    have e5 : (parms.setVerbose b).BitsPerComponent = parms.BitsPerComponent := rfl
    rw [e3, e4, e5]
    simp only at e2 ⊢
    rw [e2]

/-- Witness of C20: verbose and quiet constructions with the example library agree. -/
theorem C20_verbose_no_effect_witness :
    RenderPage.new sampleLibrary PDRotate.pdRotate0 smallRect (grayParams.setVerbose true)
      = RenderPage.new sampleLibrary PDRotate.pdRotate0 smallRect grayParams :=
  (C20_verbose_no_effect PDRotate.pdRotate0 smallRect grayParams true).2.2.2.2.1 sampleLibrary
    (fun _ _ _ => rfl)

/-! ## The PageResize sample -/

/-- The scale of `calcScalingMatrix`: every factor above 1 is replaced by 1. -/
theorem calcScalingMatrix_scale (old new : ASFixedRect) :
    (calcScalingMatrix old new).a
        = (if scalingFactor old new > 1 then 1 else scalingFactor old new)
    ∧ (calcScalingMatrix old new).d = (calcScalingMatrix old new).a
    ∧ (calcScalingMatrix old new).b = 0
    ∧ (calcScalingMatrix old new).c = 0 := by
  refine ⟨?_, rfl, rfl, rfl⟩
  unfold calcScalingMatrix
  simp only
  by_cases h : scalingFactor old new > 1
  · have h2 : 1 - scalingFactor old new < 1 / 10 := by linarith
    rw [if_pos ⟨h, h2⟩, if_pos h]
  · rw [if_neg (fun hc => h hc.1), if_neg h]

/-- Claim C22 at its failing input: for an old media box of 100 by 100 units and a new one
of 306 by 396 the factor is 153/50, a scale-up of more than 10%, and the matrix has
a = d = 1 and not the factor. -/
theorem C22_large_scale_up_reset :
    scalingFactor squareRect halfLetterRect = 153 / 50
    ∧ (11 : ℚ) / 10 ≤ scalingFactor squareRect halfLetterRect
    ∧ (calcScalingMatrix squareRect halfLetterRect).a = 1
    ∧ (calcScalingMatrix squareRect halfLetterRect).d = 1
    ∧ (calcScalingMatrix squareRect halfLetterRect).a ≠ scalingFactor squareRect halfLetterRect := by
  decide!

/-- Claim C23 at its failing input: a US Letter media box whose lower left corner is at
(100, 100), placed on a page of 306 by 396: the matrix scales by 1/2 with no translation,
the image of the box is (50, 50, 356, 446), and the margins are 50 on the left and at the
bottom and -50 on the right and at the top. -/
theorem C23_shifted_box_not_centred :
    sizeNewPage shiftedLetterRect (306 * 65536) (396 * 65536) = halfLetterRect
    ∧ calcScalingMatrix shiftedLetterRect halfLetterRect
        = { a := 1 / 2, b := 0, c := 0, d := 1 / 2, h := 0, v := 0 }
    ∧ (calcScalingMatrix shiftedLetterRect halfLetterRect).apply
          (ASFixedToFloat shiftedLetterRect.left, ASFixedToFloat shiftedLetterRect.bottom)
        = (50, 50)
    ∧ (calcScalingMatrix shiftedLetterRect halfLetterRect).apply
          (ASFixedToFloat shiftedLetterRect.right, ASFixedToFloat shiftedLetterRect.top)
        = (356, 446)
    ∧ (50 : ℚ) - ASFixedToFloat halfLetterRect.left = 50
    ∧ ASFixedToFloat halfLetterRect.right - 356 = -50
    ∧ (50 : ℚ) - ASFixedToFloat halfLetterRect.bottom = 50
    ∧ ASFixedToFloat halfLetterRect.top - 446 = -50 := by
  decide!

/-- The margins that `calcScalingMatrix` leaves around the image of the old media box: the
left one exceeds the right one by twice the scaled left of the old box, and likewise for
the bottom and the top; the content is centred when the old box starts at the origin. -/
theorem calcScalingMatrix_margins (old new : ASFixedRect)
    (hw0 : -2147483648 ≤ old.right - old.left) (hw1 : old.right - old.left < 2147483648)
    (hh0 : -2147483648 ≤ old.top - old.bottom) (hh1 : old.top - old.bottom < 2147483648)
    (nw0 : -2147483648 ≤ new.right - new.left) (nw1 : new.right - new.left < 2147483648)
    (nh0 : -2147483648 ≤ new.top - new.bottom) (nh1 : new.top - new.bottom < 2147483648) :
    (((calcScalingMatrix old new).apply
          (ASFixedToFloat old.left, ASFixedToFloat old.bottom)).1 - ASFixedToFloat new.left)
        - (ASFixedToFloat new.right - ((calcScalingMatrix old new).apply
          (ASFixedToFloat old.right, ASFixedToFloat old.top)).1)
      = 2 * (calcScalingMatrix old new).a * ASFixedToFloat old.left
    ∧ (((calcScalingMatrix old new).apply
          (ASFixedToFloat old.left, ASFixedToFloat old.bottom)).2 - ASFixedToFloat new.bottom)
        - (ASFixedToFloat new.top - ((calcScalingMatrix old new).apply
          (ASFixedToFloat old.right, ASFixedToFloat old.top)).2)
      = 2 * (calcScalingMatrix old new).d * ASFixedToFloat old.bottom := by
  have e1 : subFixed old.right old.left = old.right - old.left := wrapInt32_eq_self _ hw0 hw1
  have e2 : subFixed old.top old.bottom = old.top - old.bottom := wrapInt32_eq_self _ hh0 hh1
  have e3 : subFixed new.right new.left = new.right - new.left := wrapInt32_eq_self _ nw0 nw1
  have e4 : subFixed new.top new.bottom = new.top - new.bottom := wrapInt32_eq_self _ nh0 nh1
  unfold calcScalingMatrix ASDoubleMatrix.apply
  simp only [e1, e2, e3, e4, ASFixedToFloat, Int.cast_sub]
  constructor <;> ring

/-! ## The assertions, the output rectangle and the padded flag -/

/-- Claim C25: in `main` the output rectangle has the dimensions of the crop rectangle
swapped for the rotations 90 and 270 (its width is the height of the crop rectangle and its
height the width), and is the crop rectangle itself for the rotations 0 and 180. -/
theorem C25_fOutRect (rotation : PDRotate) (crop : ASFixedRect) :
    match rotation with
    | PDRotate.pdRotate90 | PDRotate.pdRotate270 =>
      (fOutRect rotation crop).right - (fOutRect rotation crop).left = crop.top - crop.bottom
      ∧ (fOutRect rotation crop).top - (fOutRect rotation crop).bottom
          = crop.right - crop.left
      ∧ subFixed (fOutRect rotation crop).right (fOutRect rotation crop).left
          = subFixed crop.top crop.bottom
      ∧ subFixed (fOutRect rotation crop).top (fOutRect rotation crop).bottom
          = subFixed crop.right crop.left
    | PDRotate.pdRotate0 | PDRotate.pdRotate180 => fOutRect rotation crop = crop := by
  cases rotation <;> simp [fOutRect]

theorem wrapInt32_emod_32 (x : Int) : wrapInt32 x % 32 = x % 32 := by
  unfold wrapInt32
  omega

/-- The two strides computed from a row of `P` bits, `P` a multiple of 8, are equal exactly
when `P` is a multiple of 32. -/
theorem strides_of_bits (P : Int) (h8 : P % 8 = 0) :
    ((toASSize_t P + 31) % 18446744073709551616 / 32) * 4 % 18446744073709551616
        = toASSize_t P / 8
      ↔ P % 32 = 0 := by
  unfold toASSize_t
  constructor <;> intro h <;> omega

/-- The two strides at 8 bits per component, for 1, 3 and 4 channels. -/
theorem strides_at_8_bits (width : Int) :
    createdWidth width 8 4 = desiredWidth width 8 4
    ∧ (createdWidth width 8 1 = desiredWidth width 8 1 ↔ (4 : Int) ∣ width)
    ∧ (createdWidth width 8 3 = desiredWidth width 8 3 ↔ (4 : Int) ∣ width) := by
  have key : ∀ n : Int, (createdWidth width 8 n = desiredWidth width 8 n
      ↔ (width * 8 * n) % 32 = 0) := by
    intro n
    have m1 := wrapInt32_emod_32 (wrapInt32 (width * 8) * n)
    have m2 := wrapInt32_mul_wrapInt32 (width * 8) n
    have m3 := wrapInt32_emod_32 (width * 8 * n)
    have m8 : wrapInt32 (wrapInt32 (width * 8) * n) % 8 = 0 := by
      have e : width * 8 * n = 8 * (width * n) := by ring
      have : wrapInt32 (wrapInt32 (width * 8) * n) % 32 = (8 * (width * n)) % 32 := by
        rw [m2, m3, e]
      generalize width * n = z at this
      omega
    have s := strides_of_bits (wrapInt32 (wrapInt32 (width * 8) * n)) m8
    unfold createdWidth desiredWidth mulInt32
    rw [s, m2, m3]
  refine ⟨?_, ?_, ?_⟩
  · rw [key 4]
    omega
  · rw [key 1]
    omega
  · rw [key 3]
    omega

/-- Claim C27: at 8 bits per component, for every width, with 4 channels the created row
stride equals the desired one, and with 1 or 3 channels the two differ exactly when the
width is not a multiple of 4; so, for an object whose padded flag is as the constructor sets
it, the compaction guarded by the flag gives the same buffer and size as the compaction that
always compares the strides. -/
theorem C27_padded_flag_sound (width : Int) :
    createdWidth width 8 4 = desiredWidth width 8 4
    ∧ (createdWidth width 8 1 ≠ desiredWidth width 8 1 ↔ ¬ ((4 : Int) ∣ width))
    ∧ (createdWidth width 8 3 ≠ desiredWidth width 8 3 ↔ ¬ ((4 : Int) ∣ width))
    ∧ ∀ rp : RenderPage, rp.attrs.width = width → rp.bpc = 8 →
        (rp.nComps = 1 ∨ rp.nComps = 3 ∨ rp.nComps = 4) →
        rp.padded = decide (rp.nComps % 4 ≠ 0) →
        rp.compact.buffer = rp.compactUnguarded.buffer
        ∧ rp.compact.bufferSize = rp.compactUnguarded.bufferSize := by
  obtain ⟨s4, s1, s3⟩ := strides_at_8_bits width
  refine ⟨s4, not_congr s1, not_congr s3, ?_⟩
  intro rp hwd hb hn hp
  rcases hn with hn | hn | hn
  · have hp' : rp.padded = true := by rw [hp, hn]; decide
    unfold RenderPage.compact RenderPage.compactUnguarded
    rw [if_pos hp']
    exact ⟨rfl, rfl⟩
  · have hp' : rp.padded = true := by rw [hp, hn]; decide
    unfold RenderPage.compact RenderPage.compactUnguarded
    rw [if_pos hp']
    exact ⟨rfl, rfl⟩
  · have hp' : rp.padded = false := by rw [hp, hn]; decide
    unfold RenderPage.compact RenderPage.compactUnguarded
    simp only [hp', hwd, hb, hn, s4, ne_eq, not_true_eq_false, if_false]
    exact ⟨rfl, rfl⟩

/-- Witness of C27: one row of 612 pixels of DeviceRGB. -/
theorem C27_padded_flag_sound_witness :
    rgbRowPage.compact.buffer = rgbRowPage.compactUnguarded.buffer
    ∧ rgbRowPage.compact.bufferSize = rgbRowPage.compactUnguarded.bufferSize :=
  (C27_padded_flag_sound 612).2.2.2 rgbRowPage rfl rfl (Or.inr (Or.inl rfl))
    (by decide)

/-! ## Failure of SetColorSpace, index bounds and 32-bit products -/

/-- Counterexample to C28 as stated: after DeviceRGB is set, `SetColorSpace` with the
unsupported name Lab raises the bad-parameter error and leaves `ColorSpaceName()` at Lab,
not at DeviceRGB, with `NumComps()` still 3. -/
theorem C28_failed_call_changes_name :
    (rgbParams.SetColorSpace (ASAtomFromString "Lab")).1 = Except.error ASError.genErrBadParm
    ∧ rgbParams.ColorSpaceName = ASAtomFromString "DeviceRGB"
    ∧ (rgbParams.SetColorSpace (ASAtomFromString "Lab")).2.ColorSpaceName
        = ASAtomFromString "Lab"
    ∧ (rgbParams.SetColorSpace (ASAtomFromString "Lab")).2.ColorSpaceName
        ≠ rgbParams.ColorSpaceName
    ∧ (rgbParams.SetColorSpace (ASAtomFromString "Lab")).2.NumComps = 3 := by
  decide

/-- Claim C28, as the code has it: when `SetColorSpace` raises the bad-parameter error for an
unsupported name, `NumComps()` returns the value it had before the call and every other
field is unchanged, except that `ColorSpaceName()` returns the name that was refused. -/
theorem C28_failed_SetColorSpace (p : RenderPageParams) (name : String)
    (h : ¬ (name = "DeviceGray" ∨ name = "DeviceRGB" ∨ name = "DeviceCMYK"
      ∨ name = "DeviceRGBA")) :
    (p.SetColorSpace (ASAtomFromString name)).1 = Except.error ASError.genErrBadParm
    ∧ (p.SetColorSpace (ASAtomFromString name)).2.NumComps = p.NumComps
    ∧ (p.SetColorSpace (ASAtomFromString name)).2.ColorSpaceName = ASAtomFromString name
    ∧ (p.SetColorSpace (ASAtomFromString name)).2 = { p with csAtom := ASAtomFromString name } := by
  push_neg at h
  have e : p.SetColorSpace (ASAtomFromString name)
      = (Except.error ASError.genErrBadParm, { p with csAtom := ASAtomFromString name }) := by
    unfold RenderPageParams.SetColorSpace ASAtomFromString
    simp [h.1, h.2.1, h.2.2.1, h.2.2.2]
  rw [e]
  exact ⟨rfl, rfl, rfl, rfl⟩

/-- Witness of C28: the name Lab after DeviceRGB. -/
theorem C28_failed_SetColorSpace_witness :
    (rgbParams.SetColorSpace (ASAtomFromString "Lab")).1 = Except.error ASError.genErrBadParm
    ∧ (rgbParams.SetColorSpace (ASAtomFromString "Lab")).2.NumComps = rgbParams.NumComps
    ∧ (rgbParams.SetColorSpace (ASAtomFromString "Lab")).2.ColorSpaceName
        = ASAtomFromString "Lab"
    ∧ (rgbParams.SetColorSpace (ASAtomFromString "Lab")).2
        = { rgbParams with csAtom := ASAtomFromString "Lab" } :=
  C28_failed_SetColorSpace rgbParams "Lab" (by decide)

/-- For fewer than 2^31 pixels, the values of `Index` for which the body of the loop of
`splitLoop` runs are nonnegative and below `AlphaSize`. -/
theorem splitLoopSteps_bound (A : Nat) (hA : A < 2147483648) :
    ∀ (fuel idx : Nat), idx ≤ A →
      ∀ i ∈ splitLoopSteps A fuel (idx : Int), 0 ≤ i ∧ i < (A : Int) := by
  intro fuel
  induction fuel with
  | zero => intro idx _ i hi; simp [splitLoopSteps] at hi
  | succ fuel ih =>
    intro idx hle i hi
    unfold splitLoopSteps at hi
    have ht : toASSize_t (idx : Int) = idx := toASSize_t_natCast idx (by omega)
    rw [ht] at hi
    by_cases h : idx < A
    · have an : addInt32 (idx : Int) 1 = ((idx + 1 : Nat) : Int) :=
        addInt32_natCast idx 1 (by omega)
      rw [if_pos h, an, List.mem_cons] at hi
      rcases hi with hi | hi
      · subst hi
        exact ⟨Int.ofNat_nonneg idx, Int.ofNat_lt.mpr h⟩
      · exact ih (idx + 1) (by omega) i hi
    · rw [if_neg h] at hi
      simp at hi

/-- Under the contract bufferSize = 4 * width * height, for a buffer smaller than 2^31
bytes: for every value of `Index` of the separation loop of `GetPDEImage` the read indices
(k ≤ 3) are inside the buffer, the color write indices (k ≤ 2) are below
3 * width * height and the alpha write index is below width * height. -/
theorem rgba_indices_small (bufferSize width height : Nat)
    (hsize : bufferSize = 4 * width * height) (hsmall : bufferSize < 2147483648) :
    ∀ Index ∈ splitLoopSteps (bufferSize / 4) (bufferSize / 4) 0,
      (∀ k : Nat, k ≤ 3 →
        0 ≤ addInt32 (mulInt32 Index 4) (k : Int)
        ∧ addInt32 (mulInt32 Index 4) (k : Int) < (bufferSize : Int))
      ∧ (∀ k : Nat, k ≤ 2 →
        0 ≤ addInt32 (mulInt32 Index 3) (k : Int)
        ∧ addInt32 (mulInt32 Index 3) (k : Int) < ((3 * width * height : Nat) : Int))
      ∧ 0 ≤ Index ∧ Index < ((width * height : Nat) : Int) := by
  have hA : bufferSize / 4 = width * height := by
    rw [hsize, Nat.mul_assoc]
    exact Nat.mul_div_cancel_left _ (by norm_num)
  have e4 : bufferSize = 4 * (width * height) := by rw [hsize, Nat.mul_assoc]
  have e3 : 3 * width * height = 3 * (width * height) := Nat.mul_assoc _ _ _
  rw [hA, e3]
  subst e4
  clear hsize hA e3
  generalize width * height = N at hsmall
  intro Index hI
  have hb := splitLoopSteps_bound N (by omega) N 0 (by omega) Index hI
  obtain ⟨j, rfl⟩ := Int.eq_ofNat_of_zero_le hb.1
  have hj : j < N := Int.ofNat_lt.mp hb.2
  have m4 : mulInt32 (j : Int) 4 = ((j * 4 : Nat) : Int) := mulInt32_natCast j 4 (by omega)
  have m3 : mulInt32 (j : Int) 3 = ((j * 3 : Nat) : Int) := mulInt32_natCast j 3 (by omega)
  rw [m4, m3]
  clear m4 m3 hI
  refine ⟨fun k hk => ?_, fun k hk => ?_, hb⟩
  · rw [addInt32_natCast (j * 4) k (by omega)]
    exact ⟨Int.ofNat_nonneg _, Int.ofNat_lt.mpr (by omega)⟩
  · rw [addInt32_natCast (j * 3) k (by omega)]
    exact ⟨Int.ofNat_nonneg _, Int.ofNat_lt.mpr (by omega)⟩

/-- Claim C30 at its failing inputs: for a width and a height of 30000 the product
width * height * 3, computed in `ASInt32` as in line 598, is -1594967296 and not
2700000000, so that the size of the color buffer after the conversion to `ASSize_t` is
18446744072114584320; and for a width of 134217728 at 8 bits and 4 components the row bits
of lines 565-566 are 0 and not 4294967296. -/
theorem C30_products_wrap :
    (30000 : Int) * 30000 * 3 = 2700000000
    ∧ mulInt32 (mulInt32 30000 30000) 3 = -1594967296
    ∧ toASSize_t (mulInt32 (mulInt32 30000 30000) 3) = 18446744072114584320
    ∧ (134217728 : Int) * 8 * 4 = 4294967296
    ∧ mulInt32 (mulInt32 134217728 8) 4 = 0
    ∧ createdWidth 134217728 8 4 = 0
    ∧ desiredWidth 134217728 8 4 = 0 := by
  decide

end RenderPageToImage
